import Mathlib

/-!
# Verification of the rustty terminal emulation core

A shallow embedding of the terminal emulator in `src/terminal/` (grid.rs,
color.rs, cursor.rs, command.rs, state.rs, mod.rs).  Ingestion is modelled at
the level of the `Perform` callbacks that the external `vte` parser invokes:
an `Event.print c` for a decoded printable character, `Event.execute b` for a
C0 control byte, and `Event.csi params intermediates action` for a complete
CSI sequence (so the byte sequence `ESC[0A` corresponds to
`Event.csi [[0]] [] 'A'` and `ESC[?7h` to `Event.csi [[7]] [63] 'h'`).

`vte` keeps a pending parameter accumulator, initialised to 0, and pushes it
into the parameter list when the CSI final byte arrives, so a CSI sequence
with no parameter bytes at all is delivered with the one-element parameter
list `[[0]]`: the bytes `ESC[A` also produce `Event.csi [[0]] [] 'A'`, and an
event whose parameter list is empty arises from no byte stream.  The event
type still admits such lists; the parameter lists that real byte streams
produce are the range of `vteCsiParams` below, which models the parameter
actions of the external `vte` crate (a dependency whose code is not part of
`src/`): digits accumulate into the pending `u16` parameter with saturating
arithmetic, `:` closes a subparameter, `;` closes a parameter, and dispatch
closes the last parameter.

Machine integers (`usize`, `u16`, `u8`) are modelled as `Nat`:
`saturating_sub` becomes truncated `Nat` subtraction, `as u8` becomes
`% 256`, and an unchecked Rust `-` on `usize` (which panics on underflow) is
modelled by `checkedSub`, which returns `none` exactly when Rust would panic.
Likewise `Vec::insert` at an index past the end (a Rust panic) is modelled by
an `Option`-valued insertion.  The event-processing functions therefore
return `Option Terminal`, with `none` marking a run on which the Rust code
panics.

`state.rs` as snapshotted lists fields up to `mouse_cell_motion`, while
`mod.rs` also reads and writes `mouse_all_motion`, `mouse_urxvt` and
`synchronized_output`; the embedding includes those three fields (initially
`false`, matching the pattern of the other mode flags).
-/

/-- RGB colour, `color.rs`. -/
structure Color where
  r : Nat
  g : Nat
  b : Nat
deriving DecidableEq

/-- `Color::new`. -/
def Color.new (r g b : Nat) : Color := ⟨r, g, b⟩

/-- `Color::black`. -/
def Color.black : Color := ⟨0, 0, 0⟩

/-- `Color::white`. -/
def Color.white : Color := ⟨255, 255, 255⟩

/-- The `to_rgb` closure inside `Color::from_ansi_index`: cube component 0-5
to an xterm channel value. -/
def Color.cubeChannel (v : Nat) : Nat :=
  if v = 0 then 0 else if v = 1 then 95 else if v = 2 then 135
  else if v = 3 then 175 else if v = 4 then 215 else if v = 5 then 255 else 0

/-- `Color::from_ansi_index` (argument is a `u8`, so 0-255). -/
def Color.from_ansi_index (index : Nat) : Color :=
  if index = 0 then Color.new 0 0 0
  else if index = 1 then Color.new 205 49 49
  else if index = 2 then Color.new 13 188 121
  else if index = 3 then Color.new 229 229 16
  else if index = 4 then Color.new 36 114 200
  else if index = 5 then Color.new 188 63 188
  else if index = 6 then Color.new 17 168 205
  else if index = 7 then Color.new 229 229 229
  else if index = 8 then Color.new 102 102 102
  else if index = 9 then Color.new 241 76 76
  else if index = 10 then Color.new 35 209 139
  else if index = 11 then Color.new 245 245 67
  else if index = 12 then Color.new 59 142 234
  else if index = 13 then Color.new 214 112 214
  else if index = 14 then Color.new 41 184 219
  else if index = 15 then Color.new 229 229 229
  else if index ≤ 231 then
    let i := index - 16
    Color.new (Color.cubeChannel ((i / 36) % 6)) (Color.cubeChannel ((i / 6) % 6))
      (Color.cubeChannel (i % 6))
  else
    let gray := 8 + (index - 232) * 10
    Color.new gray gray gray

/-- A grid cell, `grid.rs`. -/
structure Cell where
  ch : Char
  fg : Color
  bg : Color
  bold : Bool
  italic : Bool
  underline : Bool
  reverse : Bool
deriving DecidableEq

/-- `Cell::default()`: a space on white/black with no attributes. -/
def Cell.default : Cell :=
  ⟨' ', Color.white, Color.black, false, false, false, false⟩

/-- `CursorStyle`, `cursor.rs`. -/
inductive CursorStyle where
  | Block
  | Underline
  | Bar
deriving DecidableEq

/-- `Cursor`, `cursor.rs`. -/
structure Cursor where
  row : Nat
  col : Nat
  visible : Bool
  style : CursorStyle
deriving DecidableEq

/-- `Cursor::at_origin`. -/
def Cursor.at_origin : Cursor := ⟨0, 0, true, CursorStyle.Block⟩

/-- A row of `width` default cells, `vec![Cell::default(); width]`. -/
def blankRow (width : Nat) : List Cell := List.replicate width Cell.default

/-- `TerminalGrid`, `grid.rs`. -/
structure TerminalGrid where
  width : Nat
  cells : List (List Cell)
  viewport_height : Nat
  viewport_start : Nat
  max_scrollback : Nat
  alternate_cells : List (List Cell)
  alternate_viewport_start : Nat
  use_alternate_screen : Bool
  scroll_top : Nat
  scroll_bottom : Nat
deriving DecidableEq

/-- `TerminalGrid::new`. -/
def TerminalGrid.new (width viewport_height : Nat) : TerminalGrid :=
  { width := width
    cells := List.replicate viewport_height (blankRow width)
    viewport_height := viewport_height
    viewport_start := 0
    max_scrollback := 10000
    alternate_cells := List.replicate viewport_height (blankRow width)
    alternate_viewport_start := 0
    use_alternate_screen := false
    scroll_top := 0
    scroll_bottom := viewport_height - 1 }

/-- The `while row >= self.cells.len() { push default row }` loop of
`put_cell` (also used by the DCH handler): append default rows until `row`
is in range. -/
def growRows (cells : List (List Cell)) (width row : Nat) : List (List Cell) :=
  cells ++ List.replicate (row + 1 - cells.length) (blankRow width)

/-- `TerminalGrid::put_cell` (argument order as in the source:
`put_cell(cell, row, col)`). -/
def TerminalGrid.put_cell (g : TerminalGrid) (cell : Cell) (row col : Nat) :
    TerminalGrid :=
  let cells := growRows g.cells g.width row
  let cells :=
    if col < g.width then cells.set row ((cells.getD row []).set col cell)
    else cells
  if g.max_scrollback < cells.length then
    { g with
      cells := cells.drop (cells.length - g.max_scrollback)
      viewport_start := g.viewport_start - (cells.length - g.max_scrollback) }
  else
    { g with cells := cells }

/-- Replace every cell of a row by the default cell (the inner loop of
`clear_viewport` / `clear_line`). -/
def clearRow (r : List Cell) : List Cell := r.map fun _ => Cell.default

/-- `TerminalGrid::clear_viewport`: clears rows `viewport_start` up to
`min (viewport_start + viewport_height) cells.len()`. -/
def TerminalGrid.clear_viewport (g : TerminalGrid) : TerminalGrid :=
  { g with
    cells := g.cells.mapIdx fun i r =>
      if g.viewport_start ≤ i ∧ i < g.viewport_start + g.viewport_height then
        clearRow r
      else r }

/-- `TerminalGrid::clear_line`. -/
def TerminalGrid.clear_line (g : TerminalGrid) (row : Nat) : TerminalGrid :=
  if row < g.cells.length then
    { g with cells := g.cells.set row (clearRow (g.cells.getD row [])) }
  else g

/-- `TerminalGrid::viewport_to_end`. -/
def TerminalGrid.viewport_to_end (g : TerminalGrid) : TerminalGrid :=
  if g.viewport_height < g.cells.length then
    { g with viewport_start := g.cells.length - g.viewport_height }
  else
    { g with viewport_start := 0 }

/-- `TerminalGrid::use_alternate_screen` (the method; named differently here
because the source also has a field of that name): swap the main and
alternate buffers if the alternate screen is not already active. -/
def TerminalGrid.to_alternate_screen (g : TerminalGrid) : TerminalGrid :=
  if g.use_alternate_screen then g
  else
    { g with
      cells := g.alternate_cells
      alternate_cells := g.cells
      viewport_start := g.alternate_viewport_start
      alternate_viewport_start := g.viewport_start
      use_alternate_screen := true }

/-- `TerminalGrid::use_main_screen`: swap back if the alternate screen is
active. -/
def TerminalGrid.to_main_screen (g : TerminalGrid) : TerminalGrid :=
  if g.use_alternate_screen then
    { g with
      cells := g.alternate_cells
      alternate_cells := g.cells
      viewport_start := g.alternate_viewport_start
      alternate_viewport_start := g.viewport_start
      use_alternate_screen := false }
  else g

/-- `Vec::resize(new_width, Cell::default())` on one row: truncate or pad. -/
def resizeRow (r : List Cell) (w : Nat) : List Cell :=
  r.take w ++ List.replicate (w - r.length) Cell.default

/-- `TerminalGrid::resize`. -/
def TerminalGrid.resize (g : TerminalGrid) (new_width new_viewport_height : Nat) :
    TerminalGrid :=
  let g := { g with viewport_height := new_viewport_height }
  let g :=
    if new_width ≠ g.width then
      { g with
        cells := g.cells.map fun r => resizeRow r new_width
        alternate_cells := g.alternate_cells.map fun r => resizeRow r new_width
        width := new_width }
    else g
  let g :=
    { g with
      cells := g.cells ++
        List.replicate (g.viewport_height - g.cells.length) (blankRow g.width)
      alternate_cells := g.alternate_cells ++
        List.replicate (g.viewport_height - g.alternate_cells.length)
          (blankRow g.width) }
  let g := g.viewport_to_end
  { g with scroll_top := 0, scroll_bottom := g.viewport_height - 1 }

/-- `TerminalGrid::set_scroll_region`. -/
def TerminalGrid.set_scroll_region (g : TerminalGrid) (top bottom : Nat) :
    TerminalGrid :=
  if top < bottom ∧ bottom < g.viewport_height then
    { g with scroll_top := top, scroll_bottom := bottom }
  else g

/-- `TerminalGrid::reset_scroll_region`. -/
def TerminalGrid.reset_scroll_region (g : TerminalGrid) : TerminalGrid :=
  { g with scroll_top := 0, scroll_bottom := g.viewport_height - 1 }

/-- `for _ in 0..n { if idx < l.len() { l.remove(idx); } }` — the removal
loops of `insert_lines` and of the DCH handler. -/
def removeAtLoop {α : Type} (idx : Nat) : Nat → List α → List α
  | 0, l => l
  | n + 1, l =>
    if idx < l.length then removeAtLoop idx n (l.eraseIdx idx)
    else removeAtLoop idx n l

/-- `for _ in 0..n { l.insert(idx, a) }` — `Vec::insert` panics when
`idx > l.len()`, modelled by `none`. -/
def insertAtLoop {α : Type} (idx : Nat) (a : α) : Nat → List α → Option (List α)
  | 0, l => some l
  | n + 1, l =>
    if idx ≤ l.length then insertAtLoop idx a n (l.insertIdx idx a)
    else none

/-- `for _ in 0..n { if idx <= l.len() { l.insert(idx, a) } }` — the guarded
insertion loop of `delete_lines`. -/
def guardedInsertLoop {α : Type} (idx : Nat) (a : α) : Nat → List α → List α
  | 0, l => l
  | n + 1, l =>
    if idx ≤ l.length then guardedInsertLoop idx a n (l.insertIdx idx a)
    else guardedInsertLoop idx a n l

/-- The double-guarded removal loop of `delete_lines`:
`for _ in 0..n { if a < len && b < len { l.remove(a); } }` with
`a = abs_row` and `b = abs_row + scroll_bottom - row`. -/
def dlRemoveLoop {α : Type} (a b : Nat) : Nat → List α → List α
  | 0, l => l
  | n + 1, l =>
    if a < l.length ∧ b < l.length then dlRemoveLoop a b n (l.eraseIdx a)
    else dlRemoveLoop a b n l

/-- `TerminalGrid::insert_lines`; `none` marks the `Vec::insert` panic when
the insertion index exceeds the row count. -/
def TerminalGrid.insert_lines (g : TerminalGrid) (row count : Nat) :
    Option TerminalGrid :=
  if row < g.scroll_top ∨ g.scroll_bottom < row then some g
  else
    let count := min count (g.scroll_bottom - row + 1)
    let abs_row := g.viewport_start + row
    let cells := removeAtLoop (abs_row + g.scroll_bottom - row) count g.cells
    (insertAtLoop abs_row (blankRow g.width) count cells).map fun cells =>
      { g with cells := cells }

/-- `TerminalGrid::delete_lines` (every removal and insertion is guarded in
the source, so this one is total). -/
def TerminalGrid.delete_lines (g : TerminalGrid) (row count : Nat) :
    TerminalGrid :=
  if row < g.scroll_top ∨ g.scroll_bottom < row then g
  else
    let count := min count (g.scroll_bottom - row + 1)
    let abs_row := g.viewport_start + row
    let cells := dlRemoveLoop abs_row (abs_row + g.scroll_bottom - row) count g.cells
    let cells :=
      guardedInsertLoop (abs_row + g.scroll_bottom - row) (blankRow g.width) count
        cells
    { g with cells := cells }

/-- `EraseMode`, `command.rs`. -/
inductive EraseMode where
  | ToEnd
  | ToBeginning
  | All
  | AllWithScrollback
deriving DecidableEq

/-- `EraseMode::from_param`. -/
def EraseMode.from_param (p : Nat) : EraseMode :=
  if p = 0 then .ToEnd
  else if p = 1 then .ToBeginning
  else if p = 2 then .All
  else if p = 3 then .AllWithScrollback
  else .ToEnd

/-- `AnsiParseError` (only the variant `CsiCommand::parse` produces). -/
inductive AnsiParseError where
  | UnknownCommand (c : Char)
deriving DecidableEq

/-- `CsiCommand`, `command.rs`. -/
inductive CsiCommand where
  | CursorPosition (row col : Nat)
  | CursorUp (n : Nat)
  | CursorDown (n : Nat)
  | CursorForward (n : Nat)
  | CursorBack (n : Nat)
  | EraseInDisplay (mode : EraseMode)
  | EraseInLine (mode : EraseMode)
  | SelectGraphicRendition
  | InsertLines (n : Nat)
  | DeleteLines (n : Nat)
  | SetScrollingRegion (top bottom : Nat)
  | DeviceStatusReport (n : Nat)
  | SetCursorStyle (style : Nat)
  | CursorHorizontalAbsolute (col : Nat)
  | DeviceAttributes (n : Nat)
  | WindowManipulation (n : Nat)
  | VerticalPositionAbsolute (row : Nat)
  | EraseCharacter (n : Nat)
  | ScrollDown (n : Nat)
  | ScrollUp (n : Nat)
  | DeleteCharacter (n : Nat)
  | ResetMode (mode : Nat)
  | Unknown (c : Char)
deriving DecidableEq

/-- `CsiCommand::param_or`: parameter at `index`, with `0` filtered out so
that an explicit `0` means "use the default". -/
def CsiCommand.param_or (params : List (List Nat)) (index default : Nat) : Nat :=
  match (params.getD index []).head? with
  | some v => if v = 0 then default else v
  | none => default

/-- `CsiCommand::parse`. -/
def CsiCommand.parse (final_byte : Char) (params : List (List Nat))
    (is_dec_private : Bool) : Except AnsiParseError CsiCommand :=
  if is_dec_private then .error (.UnknownCommand final_byte)
  else if final_byte = 'H' ∨ final_byte = 'f' then
    .ok (.CursorPosition (param_or params 0 1) (param_or params 1 1))
  else if final_byte = 'A' then .ok (.CursorUp (param_or params 0 1))
  else if final_byte = 'B' then .ok (.CursorDown (param_or params 0 1))
  else if final_byte = 'C' then .ok (.CursorForward (param_or params 0 1))
  else if final_byte = 'D' then .ok (.CursorBack (param_or params 0 1))
  else if final_byte = 'J' then
    .ok (.EraseInDisplay (EraseMode.from_param (param_or params 0 0)))
  else if final_byte = 'K' then
    .ok (.EraseInLine (EraseMode.from_param (param_or params 0 0)))
  else if final_byte = 'm' then .ok .SelectGraphicRendition
  else if final_byte = 'L' then .ok (.InsertLines (param_or params 0 1))
  else if final_byte = 'M' then .ok (.DeleteLines (param_or params 0 1))
  else if final_byte = 'r' then
    .ok (.SetScrollingRegion (param_or params 0 1) (param_or params 1 0))
  else if final_byte = 'n' then .ok (.DeviceStatusReport (param_or params 0 0))
  else if final_byte = 'q' then .ok (.SetCursorStyle (param_or params 0 0))
  else if final_byte = 'G' then
    .ok (.CursorHorizontalAbsolute (param_or params 0 1))
  else if final_byte = 'c' then .ok (.DeviceAttributes (param_or params 0 0))
  else if final_byte = 't' then .ok (.WindowManipulation (param_or params 0 0))
  else if final_byte = 'd' then
    .ok (.VerticalPositionAbsolute (param_or params 0 1))
  else if final_byte = 'X' then .ok (.EraseCharacter (param_or params 0 1))
  else if final_byte = 'T' then .ok (.ScrollDown (param_or params 0 1))
  else if final_byte = 'S' then .ok (.ScrollUp (param_or params 0 1))
  else if final_byte = 'P' then .ok (.DeleteCharacter (param_or params 0 1))
  else if final_byte = 'l' then .ok (.ResetMode (param_or params 0 0))
  else .error (.UnknownCommand final_byte)

/-- `DecPrivateMode`, `command.rs`. -/
inductive DecPrivateMode where
  | ApplicationCursorKeys
  | DesignateUSASCII
  | ColumnMode132
  | SmoothScroll
  | ReverseVideo
  | OriginMode
  | AutoWrapMode
  | AutoRepeatKeys
  | MouseX10
  | CursorBlink
  | ShowCursor
  | MouseTracking
  | MouseHiliteTracking
  | MouseCellMotion
  | MouseAllMotion
  | FocusEvents
  | MouseUTF8
  | MouseSGR
  | AlternateScroll
  | MouseUrxvt
  | AlternateScreenBuffer
  | BracketedPaste
  | SynchronizedOutput
  | Unknown (mode : Nat)
deriving DecidableEq

/-- `DecPrivateMode::from_mode`. -/
def DecPrivateMode.from_mode (mode : Nat) : DecPrivateMode :=
  if mode = 1 then .ApplicationCursorKeys
  else if mode = 2 then .DesignateUSASCII
  else if mode = 3 then .ColumnMode132
  else if mode = 4 then .SmoothScroll
  else if mode = 5 then .ReverseVideo
  else if mode = 6 then .OriginMode
  else if mode = 7 then .AutoWrapMode
  else if mode = 8 then .AutoRepeatKeys
  else if mode = 9 then .MouseX10
  else if mode = 12 then .CursorBlink
  else if mode = 25 then .ShowCursor
  else if mode = 47 then .AlternateScreenBuffer
  else if mode = 1000 then .MouseTracking
  else if mode = 1001 then .MouseHiliteTracking
  else if mode = 1002 then .MouseCellMotion
  else if mode = 1003 then .MouseAllMotion
  else if mode = 1004 then .FocusEvents
  else if mode = 1005 then .MouseUTF8
  else if mode = 1006 then .MouseSGR
  else if mode = 1007 then .AlternateScroll
  else if mode = 1015 then .MouseUrxvt
  else if mode = 1049 then .AlternateScreenBuffer
  else if mode = 2004 then .BracketedPaste
  else if mode = 2026 then .SynchronizedOutput
  else .Unknown mode

/-- `SgrParameter`, `command.rs`. -/
inductive SgrParameter where
  | Reset
  | Bold
  | Faint
  | Italic
  | Underline
  | SlowBlink
  | RapidBlink
  | ReverseVideo
  | Conceal
  | CrossedOut
  | NormalIntensity
  | NotItalic
  | NotUnderlined
  | NotBlinking
  | NotReversed
  | NotConcealed
  | NotCrossedOut
  | ForegroundColor (idx : Nat)
  | BackgroundColor (idx : Nat)
  | ExtendedForeground
  | DefaultForeground
  | ExtendedBackground
  | DefaultBackground
  | ExtendedUnderlineColor
  | DefaultUnderlineColor
  | BrightForegroundColor (idx : Nat)
  | BrightBackgroundColor (idx : Nat)
  | Unknown (code : Nat)
deriving DecidableEq

/-- `SgrParameter::from_code`. -/
def SgrParameter.from_code (code : Nat) : SgrParameter :=
  if code = 0 then .Reset
  else if code = 1 then .Bold
  else if code = 2 then .Faint
  else if code = 3 then .Italic
  else if code = 4 then .Underline
  else if code = 5 then .SlowBlink
  else if code = 6 then .RapidBlink
  else if code = 7 then .ReverseVideo
  else if code = 8 then .Conceal
  else if code = 9 then .CrossedOut
  else if code = 22 then .NormalIntensity
  else if code = 23 then .NotItalic
  else if code = 24 then .NotUnderlined
  else if code = 25 then .NotBlinking
  else if code = 27 then .NotReversed
  else if code = 28 then .NotConcealed
  else if code = 29 then .NotCrossedOut
  else if 30 ≤ code ∧ code ≤ 37 then .ForegroundColor (code - 30)
  else if code = 38 then .ExtendedForeground
  else if code = 39 then .DefaultForeground
  else if 40 ≤ code ∧ code ≤ 47 then .BackgroundColor (code - 40)
  else if code = 48 then .ExtendedBackground
  else if code = 49 then .DefaultBackground
  else if code = 58 then .ExtendedUnderlineColor
  else if code = 59 then .DefaultUnderlineColor
  else if 90 ≤ code ∧ code ≤ 97 then .BrightForegroundColor (code - 90)
  else if 100 ≤ code ∧ code ≤ 107 then .BrightBackgroundColor (code - 100)
  else .Unknown code

/-- The terminal: `TerminalState` (state.rs) together with the response
queue of `Terminal` (mod.rs).  The external vte `Parser` field carries no
observable state at the event level and is omitted. -/
structure Terminal where
  grid : TerminalGrid
  cursor : Cursor
  fg : Color
  bg : Color
  bold : Bool
  italic : Bool
  underline : Bool
  reverse : Bool
  auto_wrap : Bool
  bracketed_paste : Bool
  application_cursor_keys : Bool
  show_cursor : Bool
  cursor_blink : Bool
  mouse_sgr : Bool
  focus_events : Bool
  mouse_tracking : Bool
  mouse_cell_motion : Bool
  mouse_all_motion : Bool
  mouse_urxvt : Bool
  synchronized_output : Bool
  pending_responses : List String
deriving DecidableEq

/-- `Terminal::new` / `TerminalState::new`. -/
def Terminal.new (cols rows : Nat) : Terminal :=
  { grid := TerminalGrid.new cols rows
    cursor := Cursor.at_origin
    fg := Color.white
    bg := Color.black
    bold := false
    italic := false
    underline := false
    reverse := false
    auto_wrap := true
    bracketed_paste := false
    application_cursor_keys := false
    show_cursor := true
    cursor_blink := false
    mouse_sgr := false
    focus_events := false
    mouse_tracking := false
    mouse_cell_motion := false
    mouse_all_motion := false
    mouse_urxvt := false
    synchronized_output := false
    pending_responses := [] }

/-- `Terminal::resize`. -/
def Terminal.resize (t : Terminal) (cols rows : Nat) : Terminal :=
  let t := { t with grid := t.grid.resize cols rows }
  { t with
    cursor := { t.cursor with
      row := min t.cursor.row (rows - 1)
      col := min t.cursor.col (cols - 1) } }

/-- `Terminal::param_or` (mod.rs): parameter at `index` with a default, no
zero filtering. -/
def Terminal.param_or (params : List (List Nat)) (index default : Nat) : Nat :=
  match (params.getD index []).head? with
  | some v => v
  | none => default

/-- The slice of `TerminalState` that `handle_sgr`'s parameter loop
mutates: the current colours and the four attribute flags. -/
structure SgrState where
  fg : Color
  bg : Color
  bold : Bool
  italic : Bool
  underline : Bool
  reverse : Bool
deriving DecidableEq

/-- The `SgrParameter::Reset` arm of `handle_sgr`: all four flags and both
colours back to defaults. -/
def sgrReset : SgrState :=
  ⟨Color.white, Color.black, false, false, false, false⟩

/-- The `while let Some(param) = iter.next()` loop of `handle_sgr`,
including the extra parameters consumed by `handle_extended_color` /
`extract_rgb` / `next_param` for SGR 38/48 (`as u8` casts become `% 256`).
The Rust wildcard diagnostic arms are spelled out constructor by
constructor. -/
def sgrLoop (s : SgrState) (params : List (List Nat)) : SgrState :=
  match params with
  | [] => s
  | p :: rest =>
    match SgrParameter.from_code (p.headD 0) with
    | .Reset => sgrLoop sgrReset rest
    | .Bold => sgrLoop { s with bold := true } rest
    | .Italic => sgrLoop { s with italic := true } rest
    | .Underline => sgrLoop { s with underline := true } rest
    | .NormalIntensity => sgrLoop { s with bold := false } rest
    | .NotItalic => sgrLoop { s with italic := false } rest
    | .NotUnderlined => sgrLoop { s with underline := false } rest
    | .ForegroundColor idx =>
      sgrLoop { s with fg := Color.from_ansi_index idx } rest
    | .BackgroundColor idx =>
      sgrLoop { s with bg := Color.from_ansi_index idx } rest
    | .BrightForegroundColor idx =>
      sgrLoop { s with fg := Color.from_ansi_index (idx + 8) } rest
    | .BrightBackgroundColor idx =>
      sgrLoop { s with bg := Color.from_ansi_index (idx + 8) } rest
    | .DefaultForeground => sgrLoop { s with fg := Color.white } rest
    | .DefaultBackground => sgrLoop { s with bg := Color.black } rest
    | .ExtendedForeground =>
      match rest with
      | [] => s
      | np :: r2 =>
        if np.headD 0 = 2 then
          match r2 with
          | [] => { s with fg := Color.new 0 0 0 }
          | [p1] => { s with fg := Color.new (p1.headD 0 % 256) 0 0 }
          | [p1, p2] =>
            { s with fg := Color.new (p1.headD 0 % 256) (p2.headD 0 % 256) 0 }
          | p1 :: p2 :: p3 :: r3 =>
            sgrLoop
              { s with
                fg := Color.new (p1.headD 0 % 256) (p2.headD 0 % 256)
                  (p3.headD 0 % 256) } r3
        else if np.headD 0 = 5 then
          match r2 with
          | [] => { s with fg := Color.from_ansi_index 0 }
          | p1 :: r3 =>
            sgrLoop { s with fg := Color.from_ansi_index (p1.headD 0 % 256) } r3
        else sgrLoop s r2
    | .ExtendedBackground =>
      match rest with
      | [] => s
      | np :: r2 =>
        if np.headD 0 = 2 then
          match r2 with
          | [] => { s with bg := Color.new 0 0 0 }
          | [p1] => { s with bg := Color.new (p1.headD 0 % 256) 0 0 }
          | [p1, p2] =>
            { s with bg := Color.new (p1.headD 0 % 256) (p2.headD 0 % 256) 0 }
          | p1 :: p2 :: p3 :: r3 =>
            sgrLoop
              { s with
                bg := Color.new (p1.headD 0 % 256) (p2.headD 0 % 256)
                  (p3.headD 0 % 256) } r3
        else if np.headD 0 = 5 then
          match r2 with
          | [] => { s with bg := Color.from_ansi_index 0 }
          | p1 :: r3 =>
            sgrLoop { s with bg := Color.from_ansi_index (p1.headD 0 % 256) } r3
        else sgrLoop s r2
    | .ReverseVideo => sgrLoop { s with reverse := true } rest
    | .NotReversed => sgrLoop { s with reverse := false } rest
    | .DefaultUnderlineColor => sgrLoop s rest
    | .Faint => sgrLoop s rest
    | .SlowBlink => sgrLoop s rest
    | .RapidBlink => sgrLoop s rest
    | .Conceal => sgrLoop s rest
    | .CrossedOut => sgrLoop s rest
    | .NotBlinking => sgrLoop s rest
    | .NotConcealed => sgrLoop s rest
    | .NotCrossedOut => sgrLoop s rest
    | .ExtendedUnderlineColor => sgrLoop s rest
    | .Unknown _ => sgrLoop s rest

/-- `Terminal::handle_sgr`.  Note the empty-parameter branch (source lines
359-368) resets the colours and `bold`/`italic`/`underline` but does not
touch `reverse`. -/
def Terminal.handle_sgr (t : Terminal) (params : List (List Nat)) : Terminal :=
  if params.isEmpty then
    { t with
      fg := Color.white
      bg := Color.black
      bold := false
      italic := false
      underline := false }
  else
    let s := sgrLoop ⟨t.fg, t.bg, t.bold, t.italic, t.underline, t.reverse⟩
      params
    { t with
      fg := s.fg
      bg := s.bg
      bold := s.bold
      italic := s.italic
      underline := s.underline
      reverse := s.reverse }

/-- `Terminal::handle_dec_mode_set` (`ESC[?{mode}h`).  Unknown and
not-yet-implemented modes only emit a diagnostic. -/
def Terminal.handle_dec_mode_set (t : Terminal) (params : List (List Nat)) :
    Terminal :=
  match DecPrivateMode.from_mode (Terminal.param_or params 0 0) with
  | .AlternateScreenBuffer =>
    let g := t.grid.to_alternate_screen
    let g := g.clear_viewport
    { t with grid := g, cursor := { t.cursor with row := 0, col := 0 } }
  | .AutoWrapMode => { t with auto_wrap := true }
  | .BracketedPaste => { t with bracketed_paste := true }
  | .ApplicationCursorKeys => { t with application_cursor_keys := true }
  | .ShowCursor => { t with show_cursor := true }
  | .CursorBlink => { t with cursor_blink := true }
  | .MouseSGR => { t with mouse_sgr := true }
  | .FocusEvents => { t with focus_events := true }
  | .MouseTracking => { t with mouse_tracking := true }
  | .MouseCellMotion => { t with mouse_cell_motion := true }
  | .MouseAllMotion => { t with mouse_all_motion := true }
  | .MouseUrxvt => { t with mouse_urxvt := true }
  | .SynchronizedOutput => { t with synchronized_output := true }
  | _ => t

/-- `Terminal::handle_dec_mode_reset` (`ESC[?{mode}l`). -/
def Terminal.handle_dec_mode_reset (t : Terminal) (params : List (List Nat)) :
    Terminal :=
  match DecPrivateMode.from_mode (Terminal.param_or params 0 0) with
  | .AlternateScreenBuffer => { t with grid := t.grid.to_main_screen }
  | .AutoWrapMode => { t with auto_wrap := false }
  | .BracketedPaste => { t with bracketed_paste := false }
  | .ApplicationCursorKeys => { t with application_cursor_keys := false }
  | .ShowCursor => { t with show_cursor := false }
  | .CursorBlink => { t with cursor_blink := false }
  | .MouseSGR => { t with mouse_sgr := false }
  | .FocusEvents => { t with focus_events := false }
  | .MouseTracking => { t with mouse_tracking := false }
  | .MouseCellMotion => { t with mouse_cell_motion := false }
  | .MouseAllMotion => { t with mouse_all_motion := false }
  | .MouseUrxvt => { t with mouse_urxvt := false }
  | .SynchronizedOutput => { t with synchronized_output := false }
  | _ => t

/-- The DECRQM value computed by `Terminal::generate_decrqm_response`:
1 = set, 2 = reset, 0 = not recognized / not implemented. -/
def Terminal.decrqm_value (t : Terminal) (mode_num : Nat) : Nat :=
  match DecPrivateMode.from_mode mode_num with
  | .AlternateScreenBuffer => if t.grid.use_alternate_screen then 1 else 2
  | .AutoWrapMode => if t.auto_wrap then 1 else 2
  | .BracketedPaste => if t.bracketed_paste then 1 else 2
  | .ApplicationCursorKeys => if t.application_cursor_keys then 1 else 2
  | .ShowCursor => if t.show_cursor then 1 else 2
  | .CursorBlink => if t.cursor_blink then 1 else 2
  | .MouseSGR => if t.mouse_sgr then 1 else 2
  | .FocusEvents => if t.focus_events then 1 else 2
  | .MouseTracking => if t.mouse_tracking then 1 else 2
  | .MouseCellMotion => if t.mouse_cell_motion then 1 else 2
  | .MouseAllMotion => if t.mouse_all_motion then 1 else 2
  | .MouseUrxvt => if t.mouse_urxvt then 1 else 2
  | .SynchronizedOutput => if t.synchronized_output then 1 else 2
  | _ => 0

/-- The byte string `format!("\x1b[?{};{}$y", mode_num, value)`. -/
def decrqmString (mode_num value : Nat) : String :=
  "\x1b[?" ++ Nat.repr mode_num ++ ";" ++ Nat.repr value ++ "$y"

/-- `Terminal::generate_decrqm_response`. -/
def Terminal.generate_decrqm_response (t : Terminal) (mode_num : Nat) :
    Terminal :=
  { t with
    pending_responses :=
      t.pending_responses ++ [decrqmString mode_num (t.decrqm_value mode_num)] }

/-- Checked `usize` subtraction: Rust `a - b` panics on underflow, modelled
by `none`. -/
def checkedSub (a b : Nat) : Option Nat :=
  if b ≤ a then some (a - b) else none

/-- `Perform::print` for `Terminal` (mod.rs lines 458-502).  `none` marks
the panicking subtractions `viewport_height - 1` / `width - 1` on a grid of
height or width zero. -/
def Terminal.printChar (t : Terminal) (c : Char) : Option Terminal :=
  let fgbg := if t.reverse then (t.bg, t.fg) else (t.fg, t.bg)
  let cell : Cell :=
    ⟨c, fgbg.1, fgbg.2, t.bold, t.italic, t.underline, t.reverse⟩
  let pos : Option (Nat × Nat) :=
    if t.grid.width ≤ t.cursor.col then
      if t.auto_wrap then
        if t.grid.viewport_height ≤ t.cursor.row + 1 then
          (checkedSub t.grid.viewport_height 1).map fun r => (r, 0)
        else some (t.cursor.row + 1, 0)
      else
        (checkedSub t.grid.width 1).map fun col => (t.cursor.row, col)
    else some (t.cursor.row, t.cursor.col)
  pos.map fun rc =>
    { t with
      grid := t.grid.put_cell cell rc.1 rc.2
      cursor := { t.cursor with row := rc.1, col := rc.2 + 1 } }

/-- `Perform::execute` for `Terminal` (mod.rs lines 504-533). -/
def Terminal.executeCtl (t : Terminal) (byte : Nat) : Option Terminal :=
  if byte = 10 then
    if t.grid.viewport_height ≤ t.cursor.row + 1 then
      (checkedSub t.grid.viewport_height 1).map fun r =>
        { t with cursor := { t.cursor with row := r } }
    else some { t with cursor := { t.cursor with row := t.cursor.row + 1 } }
  else if byte = 13 then
    some { t with cursor := { t.cursor with col := 0 } }
  else if byte = 8 then
    if 0 < t.cursor.col then
      some { t with cursor := { t.cursor with col := t.cursor.col - 1 } }
    else some t
  else if byte = 9 then
    (checkedSub t.grid.width 1).map fun wm1 =>
      { t with
        cursor := { t.cursor with
          col := min ((t.cursor.col / 8 + 1) * 8) wm1 } }
  else some t

/-- One step of `for col in a..b { put_cell(default, row, col) }`. -/
def eraseColsFold (row : Nat) (g : TerminalGrid) (col : Nat) : TerminalGrid :=
  g.put_cell Cell.default row col

/-- The insertion loop of the SU handler (mod.rs lines 823-829): each
iteration inserts a blank row at
`min (viewport_start + viewport_height - lines_to_remove) len`. -/
def scrollUpInsertLoop (pos : Nat) (row : List Cell) :
    Nat → List (List Cell) → List (List Cell)
  | 0, l => l
  | n + 1, l => scrollUpInsertLoop pos row n (l.insertIdx (min pos l.length) row)

/-- Execution of a parsed `CsiCommand` — the big `match command` of
`csi_dispatch` (mod.rs lines 589-873).  `none` marks a Rust panic. -/
def Terminal.execCommand (t : Terminal) (cmd : CsiCommand) : Option Terminal :=
  match cmd with
  | .CursorPosition row col => do
    let hm1 ← checkedSub t.grid.viewport_height 1
    let wm1 ← checkedSub t.grid.width 1
    pure { t with
      cursor := { t.cursor with row := min (row - 1) hm1, col := min (col - 1) wm1 } }
  | .CursorUp n =>
    some { t with cursor := { t.cursor with row := t.cursor.row - n } }
  | .CursorDown n =>
    (checkedSub t.grid.viewport_height 1).map fun hm1 =>
      { t with cursor := { t.cursor with row := min (t.cursor.row + n) hm1 } }
  | .CursorForward n =>
    (checkedSub t.grid.width 1).map fun wm1 =>
      { t with cursor := { t.cursor with col := min (t.cursor.col + n) wm1 } }
  | .CursorBack n =>
    some { t with cursor := { t.cursor with col := t.cursor.col - n } }
  | .CursorHorizontalAbsolute col =>
    (checkedSub t.grid.width 1).map fun wm1 =>
      { t with cursor := { t.cursor with col := min (col - 1) wm1 } }
  | .EraseInDisplay mode =>
    match mode with
    | .ToEnd =>
      let g := List.foldl (eraseColsFold t.cursor.row) t.grid
        (List.range' t.cursor.col (t.grid.width - t.cursor.col))
      let viewport_end := g.viewport_start + g.viewport_height
      let g := List.foldl (fun g r => g.clear_line r) g
        (List.range' (t.cursor.row + 1) (viewport_end - (t.cursor.row + 1)))
      some { t with grid := g }
    | .All =>
      some { t with
        grid := t.grid.clear_viewport
        cursor := { t.cursor with row := 0, col := 0 } }
    | .ToBeginning =>
      let g := List.foldl (fun g r => g.clear_line r) t.grid
        (List.range' 0 t.cursor.row)
      let g := List.foldl (eraseColsFold t.cursor.row) g
        (List.range' 0 (t.cursor.col + 1))
      some { t with grid := g }
    | .AllWithScrollback =>
      some { t with grid := t.grid.clear_viewport }
  | .EraseInLine mode =>
    match mode with
    | .ToEnd =>
      some { t with
        grid := List.foldl (eraseColsFold t.cursor.row) t.grid
          (List.range' t.cursor.col (t.grid.width - t.cursor.col)) }
    | .All => some { t with grid := t.grid.clear_line t.cursor.row }
    | .ToBeginning =>
      some { t with
        grid := List.foldl (eraseColsFold t.cursor.row) t.grid
          (List.range' 0 (t.cursor.col + 1)) }
    | .AllWithScrollback => some t
  | .SetScrollingRegion top bottom =>
    let g :=
      if top = 0 ∧ bottom = 0 then t.grid.reset_scroll_region
      else if 0 < top ∧ 0 < bottom then t.grid.set_scroll_region (top - 1) (bottom - 1)
      else t.grid
    some { t with
      grid := g
      cursor := { t.cursor with row := g.viewport_start, col := 0 } }
  | .InsertLines n => do
    let cursor_row ← checkedSub t.cursor.row t.grid.viewport_start
    let g ← t.grid.insert_lines cursor_row (max n 1)
    pure { t with grid := g }
  | .DeleteLines n => do
    let cursor_row ← checkedSub t.cursor.row t.grid.viewport_start
    pure { t with grid := t.grid.delete_lines cursor_row (max n 1) }
  | .SelectGraphicRendition => some t
  | .DeviceStatusReport n =>
    if n = 6 then
      some { t with
        pending_responses := t.pending_responses ++
          ["\x1b[" ++ Nat.repr (t.cursor.row + 1) ++ ";" ++
            Nat.repr (t.cursor.col + 1) ++ "R"] }
    else some t
  | .DeviceAttributes n =>
    if n = 0 then
      some { t with pending_responses := t.pending_responses ++ ["\x1b[?1;2c"] }
    else some t
  | .WindowManipulation _ => some t
  | .SetCursorStyle style =>
    let new_style :=
      if style = 0 ∨ style = 1 ∨ style = 2 then CursorStyle.Block
      else if style = 3 ∨ style = 4 then CursorStyle.Underline
      else if style = 5 ∨ style = 6 then CursorStyle.Bar
      else CursorStyle.Block
    let t := { t with cursor := { t.cursor with style := new_style } }
    some (if 0 < style then { t with cursor_blink := style % 2 = 1 } else t)
  | .VerticalPositionAbsolute row =>
    (checkedSub t.grid.viewport_height 1).map fun hm1 =>
      { t with cursor := { t.cursor with row := min (row - 1) hm1 } }
  | .EraseCharacter n =>
    let start_col := t.cursor.col
    let end_col := min (start_col + n) t.grid.width
    some { t with
      grid := List.foldl (eraseColsFold t.cursor.row) t.grid
        (List.range' start_col (end_col - start_col)) }
  | .ScrollDown n => do
    let cells ← insertAtLoop t.grid.viewport_start (blankRow t.grid.width) n
      t.grid.cells
    let g := { t.grid with cells := cells }
    let g :=
      if g.max_scrollback < g.cells.length then
        { g with
          cells := g.cells.drop (g.cells.length - g.max_scrollback)
          viewport_start := g.viewport_start - (g.cells.length - g.max_scrollback) }
      else g
    pure { t with grid := g }
  | .ScrollUp n =>
    let lines_to_remove := min n t.grid.viewport_height
    if t.grid.viewport_start + lines_to_remove ≤ t.grid.cells.length then
      let cells := t.grid.cells.take t.grid.viewport_start ++
        t.grid.cells.drop (t.grid.viewport_start + lines_to_remove)
      let cells := scrollUpInsertLoop
        (t.grid.viewport_start + t.grid.viewport_height - lines_to_remove)
        (blankRow t.grid.width) lines_to_remove cells
      some { t with grid := { t.grid with cells := cells } }
    else some t
  | .DeleteCharacter n =>
    if t.cursor.col < t.grid.width then
      let abs_row := t.grid.viewport_start + t.cursor.row
      let cells := growRows t.grid.cells t.grid.width abs_row
      let n_chars := min n (t.grid.width - t.cursor.col)
      let r := removeAtLoop t.cursor.col n_chars (cells.getD abs_row [])
      let r := r ++ List.replicate (t.grid.width - r.length) Cell.default
      some { t with grid := { t.grid with cells := cells.set abs_row r } }
    else some t
  | .ResetMode _ => some t
  | .Unknown _ => some t

/-- `Perform::csi_dispatch` for `Terminal` (mod.rs lines 535-874). -/
def Terminal.csi_dispatch (t : Terminal) (params : List (List Nat))
    (intermediates : List Nat) (action : Char) : Option Terminal :=
  let is_dec_private := intermediates.head? = some 63
  let has_gt := intermediates.head? = some 62
  if has_gt ∧ action = 'c' then
    some { t with pending_responses := t.pending_responses ++ ["\x1b[>1;0;0c"] }
  else if is_dec_private then
    if action = 'h' then some (t.handle_dec_mode_set params)
    else if action = 'l' then some (t.handle_dec_mode_reset params)
    else if action = 'p' then
      some (t.generate_decrqm_response (Terminal.param_or params 0 0))
    else some t
  else
    match CsiCommand.parse action params false with
    | .error _ => some t
    | .ok .SelectGraphicRendition => some (t.handle_sgr params)
    | .ok cmd => t.execCommand cmd

/-- A `Perform` event emitted by the external vte parser. -/
inductive Event where
  | print (c : Char)
  | execute (byte : Nat)
  | csi (params : List (List Nat)) (intermediates : List Nat) (action : Char)
deriving DecidableEq

/-- Apply one parser event to the terminal; `none` marks a Rust panic. -/
def applyEvent (e : Event) (t : Terminal) : Option Terminal :=
  match e with
  | .print c => t.printChar c
  | .execute b => t.executeCtl b
  | .csi params intermediates action => t.csi_dispatch params intermediates action

/-- `Terminal::process_bytes`, at the event level: fold the events emitted by
the parser over the terminal state. -/
def processEvents (es : List Event) (t : Terminal) : Option Terminal :=
  match es with
  | [] => some t
  | e :: rest =>
    match applyEvent e t with
    | none => none
    | some t' => processEvents rest t'

/-- The cells of the primary screen: the held-aside buffer while the
alternate screen is active, the active buffer otherwise. -/
def primary_cells (g : TerminalGrid) : List (List Cell) :=
  if g.use_alternate_screen then g.alternate_cells else g.cells

/-- The parameter-collection state of the external `vte` parser while it
reads a CSI sequence: the completed parameters (each a list of
subparameters), the completed subparameters of the current parameter, and
the pending `u16` accumulator (0 until a digit arrives). -/
structure VteParamState where
  groups : List (List Nat)
  cur : List Nat
  param : Nat
deriving DecidableEq

/-- One CSI parameter byte as `vte` handles it: `;` (0x3B) closes the
current parameter, `:` (0x3A) closes the current subparameter, a digit
accumulates into the pending parameter with saturating `u16` arithmetic. -/
def vteParamByte (s : VteParamState) (b : Nat) : VteParamState :=
  if b = 59 then
    { groups := s.groups ++ [s.cur ++ [s.param]], cur := [], param := 0 }
  else if b = 58 then
    { s with cur := s.cur ++ [s.param], param := 0 }
  else
    { s with param := min (s.param * 10 + (b - 48)) 65535 }

/-- The parameter list that `vte` delivers to `Perform::csi_dispatch` for a
CSI sequence whose parameter bytes are `bytes`: the parameter bytes are
folded through `vteParamByte`, and the final byte pushes the pending
parameter, so the delivered list is never empty (a CSI with no parameter
bytes delivers `[[0]]`). -/
def vteCsiParams (bytes : List Nat) : List (List Nat) :=
  let s := bytes.foldl vteParamByte ⟨[], [], 0⟩
  s.groups ++ [s.cur ++ [s.param]]

/-- The parameter bytes of a CSI sequence given as a list of digit strings,
one per parameter, separated by `;` (0x3B); a digit `d` is the byte
`d + 48`, and an empty digit string is an omitted parameter. -/
def encodeParams : List (List Nat) → List Nat
  | [] => []
  | [g] => g.map (· + 48)
  | g :: gs => g.map (· + 48) ++ 59 :: encodeParams gs

/-- C1: processing the line-feed byte 0x0A with the cursor on the bottom
viewport row leaves the terminal state completely unchanged — the cursor row
is clamped at `viewport_height - 1` and the grid does not scroll (on a 1×2
terminal holding rows `A`, `B` a scroll would have produced rows `B`, blank).
This contradicts the claim that LF past the bottom scrolls the screen up by
one line rather than merely clamping. -/
theorem c1_linefeed_clamps_and_does_not_scroll :
    processEvents [.print 'A', .execute 10, .execute 13, .print 'B', .execute 10]
        (Terminal.new 1 2) =
      processEvents [.print 'A', .execute 10, .execute 13, .print 'B']
        (Terminal.new 1 2) ∧
    (processEvents [.print 'A', .execute 10, .execute 13, .print 'B']
        (Terminal.new 1 2)).map
        (fun t => (t.cursor.row, t.grid.cells.map fun r => r.map Cell.ch)) =
      some (1, [['A'], ['B']]) :=
  ⟨rfl, rfl⟩

/-- C3 counterexample: printing a character in the last column of a fresh
1×1 terminal leaves `cursor.col = width`, so the claimed invariant
`cursor.col < width` fails immediately after printing in the last column. -/
theorem c3_counterexample_col_eq_width :
    (processEvents [.print 'A'] (Terminal.new 1 1)).map
        (fun t => decide (t.cursor.col < t.grid.width)) = some false ∧
    (processEvents [.print 'A'] (Terminal.new 1 1)).map
        (fun t => (t.cursor.col, t.grid.width)) = some (1, 1) :=
  ⟨rfl, rfl⟩

/-- C5: after `A` is pushed out of the 1×1 viewport by a scroll-down,
`ESC[3J` (Erase in Display, mode 3) leaves the row count at 2 (a row beyond
the viewport remains) and the cell `A` intact — the scrollback buffer is not
cleared, only the viewport is. -/
theorem c5_erase_mode3_leaves_scrollback :
    (processEvents [.print 'A', .csi [[0]] [] 'T', .csi [[3]] [] 'J']
        (Terminal.new 1 1)).map
        (fun t => (t.grid.cells.length, t.grid.cells.map fun r => r.map Cell.ch)) =
      some (2, [[' '], ['A']]) :=
  rfl

/-- `DecPrivateMode::from_mode 1049` resolves to the alternate screen
buffer mode. -/
theorem from_mode_1049 :
    DecPrivateMode.from_mode 1049 = DecPrivateMode.AlternateScreenBuffer := rfl

/-- C7: entering the alternate screen with `CSI ? 1049 h` (swap, clear the
alternate screen, home the cursor) and leaving it with `CSI ? 1049 l` (swap
back) leaves the primary-screen cells bitwise identical, from every starting
state. -/
theorem c7_alternate_screen_round_trip (t : Terminal) :
    (processEvents [.csi [[1049]] [63] 'h', .csi [[1049]] [63] 'l'] t).map
        (fun u => primary_cells u.grid) = some (primary_cells t.grid) := by
  by_cases h : t.grid.use_alternate_screen <;>
    simp [processEvents, applyEvent, Terminal.csi_dispatch,
      Terminal.handle_dec_mode_set, Terminal.handle_dec_mode_reset,
      Terminal.param_or, from_mode_1049, TerminalGrid.to_alternate_screen,
      TerminalGrid.to_main_screen, TerminalGrid.clear_viewport, primary_cells, h]

/-- `CsiCommand::parse` of `ESC[{s}q`: the zero filter makes an explicit 0
coincide with the default 0, so the parsed style is always `s`. -/
theorem parse_q (s : Nat) :
    CsiCommand.parse 'q' [[s]] false = .ok (.SetCursorStyle s) := by
  by_cases hs : s = 0 <;> simp [CsiCommand.parse, CsiCommand.param_or, hs]

/-- C10: DECSCUSR semantics.  Any parameter greater than 6 yields a Block
cursor; 0 yields Block with the blink flag untouched; 1-2 Block, 3-4
Underline, 5-6 Bar, with odd parameters setting and even parameters
clearing the cursor-blink flag. -/
theorem c10_set_cursor_style (t : Terminal) (s : Nat) :
    ((applyEvent (.csi [[s]] [] 'q') t).map fun u => u.cursor.style) =
      some (if s ≤ 2 ∨ 6 < s then CursorStyle.Block
        else if s ≤ 4 then CursorStyle.Underline
        else CursorStyle.Bar) ∧
    ((applyEvent (.csi [[s]] [] 'q') t).map fun u => u.cursor_blink) =
      some (if s = 0 then t.cursor_blink else decide (s % 2 = 1)) := by
  simp only [applyEvent, Terminal.csi_dispatch, parse_q, Terminal.execCommand]
  norm_num
  constructor <;> split_ifs <;> simp_all <;> omega

/-- `CsiCommand::param_or` treats an explicit 0 exactly like a missing
parameter: the singleton parameter list `[[0]]` and the empty list give the
default at every index. -/
theorem csi_param_or_zero (i d : Nat) :
    CsiCommand.param_or [[0]] i d = CsiCommand.param_or [] i d := by
  cases i <;> simp [CsiCommand.param_or]

/-- `CsiCommand::parse` cannot distinguish `[[0]]` from `[]`. -/
theorem parse_zero_param (a : Char) :
    CsiCommand.parse a [[0]] false = CsiCommand.parse a [] false := by
  simp [CsiCommand.parse, csi_param_or_zero]

/-- A CSI sequence with no parameter bytes is delivered with the parameter
list `[[0]]` (vte pushes the pending 0 at dispatch): `ESC[A` and `ESC[0A`
produce the same call. -/
theorem vteCsiParams_nil : vteCsiParams [] = [[0]] := rfl

/-- The single parameter byte `0` (0x30) is also delivered as `[[0]]`. -/
theorem vteCsiParams_zero_byte : vteCsiParams [48] = [[0]] := rfl

/-- The parameter bytes `10;20` (as in `ESC[10;20H`) are delivered as the
two parameters 10 and 20. -/
theorem vteCsiParams_two_params :
    vteCsiParams (encodeParams [[1, 0], [2, 0]]) = [[10], [20]] := rfl

/-- Processing the digit byte `0` while the pending parameter is 0 leaves
the vte parameter state unchanged (`0 * 10 + 0 = 0`). -/
theorem vteParamByte_zero_digit {s : VteParamState} (hs : s.param = 0) :
    vteParamByte s 48 = s := by
  cases s
  simp_all [vteParamByte]

/-- `encodeParams` on a list with a nonempty tail: render the head group,
then `;`, then the rest. -/
theorem encodeParams_cons (g : List Nat) (gs : List (List Nat))
    (h : gs ≠ []) :
    encodeParams (g :: gs) = g.map (· + 48) ++ 59 :: encodeParams gs := by
  cases gs with
  | nil => exact absurd rfl h
  | cons a l => rfl

/-- Replacing an omitted parameter (empty digit string) by the explicit
digit string `0` leaves the vte parameter fold unchanged, from any state
whose pending parameter is 0. -/
theorem encodeParams_zero_group (pre post : List (List Nat))
    (s : VteParamState) (hs : s.param = 0) :
    (encodeParams (pre ++ [0] :: post)).foldl vteParamByte s =
      (encodeParams (pre ++ [] :: post)).foldl vteParamByte s := by
  induction pre generalizing s with
  | nil =>
    cases post with
    | nil =>
      simp [encodeParams, vteParamByte_zero_digit hs]
    | cons p ps =>
      simp only [List.nil_append]
      rw [encodeParams_cons [0] (p :: ps) (by simp),
        encodeParams_cons [] (p :: ps) (by simp)]
      simp [vteParamByte_zero_digit hs]
  | cons g pre ih =>
    simp only [List.cons_append]
    rw [encodeParams_cons _ _ (by simp), encodeParams_cons _ _ (by simp),
      List.foldl_append, List.foldl_append, List.foldl_cons, List.foldl_cons]
    exact ih _ rfl

/-- The delivered parameter lists of a CSI sequence with an explicit `0`
parameter and of the same sequence with that parameter omitted coincide. -/
theorem vteCsiParams_zero_group (pre post : List (List Nat)) :
    vteCsiParams (encodeParams (pre ++ [0] :: post)) =
      vteCsiParams (encodeParams (pre ++ [] :: post)) := by
  simp only [vteCsiParams]
  rw [encodeParams_zero_group pre post ⟨[], [], 0⟩ rfl]

/-- C6: for every CSI sequence (any final byte, any intermediates, any
starting state), a parameter supplied as the explicit digit `0` yields
exactly the same terminal state as omitting that parameter entirely: vte
accumulates a pending parameter that starts at 0 and pushes it at dispatch,
so the two byte forms deliver identical parameter lists to `csi_dispatch`
(for example `ESC[0A` and `ESC[A` both deliver `[[0]]`, and this covers SGR
`ESC[0m` / `ESC[m` as well). -/
theorem c6_zero_param_equals_omitted (pre post : List (List Nat))
    (ints : List Nat) (a : Char) (t : Terminal) :
    applyEvent
        (.csi (vteCsiParams (encodeParams (pre ++ [0] :: post))) ints a) t =
      applyEvent
        (.csi (vteCsiParams (encodeParams (pre ++ [] :: post))) ints a) t := by
  rw [vteCsiParams_zero_group]

/-- C4: SGR reset, both byte forms.  The explicit-zero form `ESC[0m` and
the no-parameter form `ESC[m` both deliver the parameter list `[[0]]`
(vte pushes the pending 0 at dispatch), and processing it resets all four
attribute flags — bold, italic, underline and reverse — and both colours to
the white-on-black defaults.  (`handle_sgr`'s empty-parameter branch, which
would leave `reverse` unchanged, is unreachable from `process_bytes`.) -/
theorem c4_sgr_reset_zero_and_empty (t : Terminal) :
    applyEvent (.csi (vteCsiParams (encodeParams [[0]])) [] 'm') t =
      some { t with
        fg := Color.white
        bg := Color.black
        bold := false
        italic := false
        underline := false
        reverse := false } ∧
    applyEvent (.csi (vteCsiParams []) [] 'm') t =
      some { t with
        fg := Color.white
        bg := Color.black
        bold := false
        italic := false
        underline := false
        reverse := false } :=
  ⟨rfl, rfl⟩

/-- The mode numbers `DecPrivateMode::from_mode` recognizes (everything else
maps to `Unknown`). -/
def recognized_dec_modes : List Nat :=
  [1, 2, 3, 4, 5, 6, 7, 8, 9, 12, 25, 47, 1000, 1001, 1002, 1003, 1004, 1005,
    1006, 1007, 1015, 1049, 2004, 2026]

/-- The mode numbers whose flag `generate_decrqm_response` actually tracks
(value 1/2); the remaining recognized modes report 0. -/
def tracked_dec_modes : List Nat :=
  [1, 7, 12, 25, 47, 1049, 1000, 1002, 1003, 1004, 1006, 1015, 2004, 2026]

/-- C8: DECRQM.  Querying any mode number appends exactly one response of
the form `ESC[?<m>;<value>$y`; the value follows the corresponding flag
(1 set / 2 reset) for each tracked mode, is 2 after a set-then-reset of any
tracked mode, and is 0 for an unrecognized mode number. -/
theorem c8_decrqm_response (t : Terminal) (m : Nat) :
    (m ∉ recognized_dec_modes → t.decrqm_value m = 0) ∧
    (m ∈ tracked_dec_modes →
      (processEvents [.csi [[m]] [63] 'h', .csi [[m]] [63] 'l',
          .csi [[m]] [63] 'p'] t).map (fun u => u.pending_responses) =
        some (t.pending_responses ++ [decrqmString m 2])) ∧
    applyEvent (.csi [[m]] [63] 'p') t =
      some { t with
        pending_responses :=
          t.pending_responses ++ [decrqmString m (t.decrqm_value m)] } ∧
    t.decrqm_value 1 = (if t.application_cursor_keys then 1 else 2) ∧
    t.decrqm_value 7 = (if t.auto_wrap then 1 else 2) ∧
    t.decrqm_value 12 = (if t.cursor_blink then 1 else 2) ∧
    t.decrqm_value 25 = (if t.show_cursor then 1 else 2) ∧
    t.decrqm_value 47 = (if t.grid.use_alternate_screen then 1 else 2) ∧
    t.decrqm_value 1049 = (if t.grid.use_alternate_screen then 1 else 2) ∧
    t.decrqm_value 1000 = (if t.mouse_tracking then 1 else 2) ∧
    t.decrqm_value 1002 = (if t.mouse_cell_motion then 1 else 2) ∧
    t.decrqm_value 1003 = (if t.mouse_all_motion then 1 else 2) ∧
    t.decrqm_value 1004 = (if t.focus_events then 1 else 2) ∧
    t.decrqm_value 1006 = (if t.mouse_sgr then 1 else 2) ∧
    t.decrqm_value 1015 = (if t.mouse_urxvt then 1 else 2) ∧
    t.decrqm_value 2004 = (if t.bracketed_paste then 1 else 2) ∧
    t.decrqm_value 2026 = (if t.synchronized_output then 1 else 2) := by
  refine ⟨?_, ?_, rfl, rfl, rfl, rfl, rfl, rfl, rfl, rfl, rfl, rfl, rfl, rfl,
    rfl, rfl, rfl⟩
  · intro hmem
    simp only [recognized_dec_modes, List.mem_cons, List.mem_singleton,
      not_or] at hmem
    obtain ⟨e1, e2, e3, e4, e5, e6, e7, e8, e9, e10, e11, e12, e13, e14, e15,
      e16, e17, e18, e19, e20, e21, e22, e23, e24⟩ := hmem
    simp [Terminal.decrqm_value, DecPrivateMode.from_mode, e1, e2, e3, e4, e5,
      e6, e7, e8, e9, e10, e11, e12, e13, e14, e15, e16, e17, e18, e19, e20,
      e21, e22, e23, e24]
  · intro hmem
    simp only [tracked_dec_modes, List.mem_cons, List.mem_singleton] at hmem
    rcases hmem with rfl|rfl|rfl|rfl|rfl|rfl|rfl|rfl|rfl|rfl|rfl|rfl|rfl|rfl|h
    · rfl
    · rfl
    · rfl
    · rfl
    · cases h47 : t.grid.use_alternate_screen <;>
        simp [processEvents, applyEvent, Terminal.csi_dispatch,
          Terminal.handle_dec_mode_set, Terminal.handle_dec_mode_reset,
          Terminal.generate_decrqm_response, Terminal.decrqm_value,
          Terminal.param_or, DecPrivateMode.from_mode,
          TerminalGrid.to_alternate_screen, TerminalGrid.to_main_screen,
          TerminalGrid.clear_viewport, h47]
    · cases h47 : t.grid.use_alternate_screen <;>
        simp [processEvents, applyEvent, Terminal.csi_dispatch,
          Terminal.handle_dec_mode_set, Terminal.handle_dec_mode_reset,
          Terminal.generate_decrqm_response, Terminal.decrqm_value,
          Terminal.param_or, DecPrivateMode.from_mode,
          TerminalGrid.to_alternate_screen, TerminalGrid.to_main_screen,
          TerminalGrid.clear_viewport, h47]
    · rfl
    · rfl
    · rfl
    · rfl
    · rfl
    · rfl
    · rfl
    · rfl
    · exact absurd h (List.not_mem_nil m)

/-- Witness for `c8_decrqm_response`: mode 999 is unrecognized and reports
0; mode 2004 (bracketed paste) reports 2 after set-then-reset. -/
theorem c8_decrqm_response_witness :
    (999 ∉ recognized_dec_modes ∧ (Terminal.new 1 1).decrqm_value 999 = 0) ∧
    (2004 ∈ tracked_dec_modes ∧
      (processEvents [.csi [[2004]] [63] 'h', .csi [[2004]] [63] 'l',
          .csi [[2004]] [63] 'p'] (Terminal.new 1 1)).map
          (fun u => u.pending_responses) =
        some ((Terminal.new 1 1).pending_responses ++ [decrqmString 2004 2])) :=
  ⟨⟨by decide, (c8_decrqm_response (Terminal.new 1 1) 999).1 (by decide)⟩,
    ⟨by decide, (c8_decrqm_response (Terminal.new 1 1) 2004).2.1 (by decide)⟩⟩
/-- C9: the `put_cell` contract.  The growth loop appends default-filled
rows until `row` is in range; if the row count then exceeds
`max_scrollback` the oldest excess rows are dropped, `viewport_start` is
decreased by the excess (saturating, since this is `Nat` subtraction) and
the row count comes back to `max_scrollback` (so `len ≤ max_scrollback`
always holds afterwards); and a write with `col ≥ width` is silently
ignored: the resulting grid does not depend on the cell at all. -/
theorem c9_put_cell_contract (g : TerminalGrid) (cell : Cell) (row col : Nat) :
    (g.cells.length ≤ row →
      growRows g.cells g.width row =
        g.cells ++ List.replicate (row + 1 - g.cells.length) (blankRow g.width)) ∧
    row < (growRows g.cells g.width row).length ∧
    (g.put_cell cell row col).cells.length ≤ g.max_scrollback ∧
    (g.max_scrollback < (growRows g.cells g.width row).length →
      (g.put_cell cell row col).cells.length = g.max_scrollback ∧
      (g.put_cell cell row col).viewport_start =
        g.viewport_start -
          ((growRows g.cells g.width row).length - g.max_scrollback)) ∧
    (g.width ≤ col →
      (g.put_cell cell row col).cells =
        (if g.max_scrollback < (growRows g.cells g.width row).length then
          (growRows g.cells g.width row).drop
            ((growRows g.cells g.width row).length - g.max_scrollback)
        else growRows g.cells g.width row) ∧
      ∀ cell' : Cell, g.put_cell cell row col = g.put_cell cell' row col) := by
  have hL : (growRows g.cells g.width row).length =
      g.cells.length + (row + 1 - g.cells.length) := by
    simp [growRows]
  refine ⟨fun _ => rfl, by omega, ?_, ?_, ?_⟩
  · simp only [TerminalGrid.put_cell]
    split_ifs <;> simp_all <;> omega
  · intro hex
    simp only [TerminalGrid.put_cell]
    split_ifs <;> simp_all <;> omega
  · intro hcol
    have hcol' : ¬ col < g.width := by omega
    constructor
    · simp only [TerminalGrid.put_cell, if_neg hcol']
      split <;> rfl
    · intro cell'
      simp only [TerminalGrid.put_cell, if_neg hcol']

/-- Witness for `c9_put_cell_contract`: a 1×1 grid with `max_scrollback`
cut to 1, written at `row = 1`, `col = 5` exercises all three hypotheses
(growth, trimming and the ignored out-of-range column). -/
theorem c9_put_cell_contract_witness :
    ((({ TerminalGrid.new 1 1 with max_scrollback := 1 }) : TerminalGrid).cells.length ≤ 1 ∧
      ({ TerminalGrid.new 1 1 with max_scrollback := 1 } : TerminalGrid).max_scrollback <
        (growRows ({ TerminalGrid.new 1 1 with max_scrollback := 1 } : TerminalGrid).cells 1 1).length ∧
      ({ TerminalGrid.new 1 1 with max_scrollback := 1 } : TerminalGrid).width ≤ 5) ∧
    (({ TerminalGrid.new 1 1 with max_scrollback := 1 } : TerminalGrid).put_cell
          Cell.default 1 5).cells.length = 1 ∧
      ∀ cell' : Cell,
        ({ TerminalGrid.new 1 1 with max_scrollback := 1 } : TerminalGrid).put_cell
            Cell.default 1 5 =
          ({ TerminalGrid.new 1 1 with max_scrollback := 1 } : TerminalGrid).put_cell
            cell' 1 5 := by
  refine ⟨by decide, ?_, ?_⟩
  · exact ((c9_put_cell_contract { TerminalGrid.new 1 1 with max_scrollback := 1 }
      Cell.default 1 5).2.2.2.1 (by decide)).1
  · exact ((c9_put_cell_contract { TerminalGrid.new 1 1 with max_scrollback := 1 }
      Cell.default 1 5).2.2.2.2 (by decide)).2
/-- C2 counterexample: a reachable state (scroll-down, then resize, both
public API calls) has `cursor.row = 0 < 1 = viewport_start`; dispatching
CSI `L` (Insert Lines) there hits the underflowing subtraction
`cursor.row - viewport_start` and the run is a panic (`none`). -/
theorem c2_counterexample_insert_lines_underflow :
    ((processEvents [.csi [[0]] [] 'T'] (Terminal.new 2 2)).map
        (fun t => Terminal.resize t 2 2)).bind (applyEvent (.csi [[0]] [] 'L')) =
      none ∧
    (processEvents [.csi [[0]] [] 'T'] (Terminal.new 2 2)).map
        (fun t =>
          ((Terminal.resize t 2 2).cursor.row,
            (Terminal.resize t 2 2).grid.viewport_start)) =
      some (0, 1) :=
  ⟨rfl, rfl⟩

/-- Every row of `cells` has length `w` (spec invariant 1; needed to rule
out the out-of-bounds row indexing panics). -/
def RowsW (w : Nat) (cells : List (List Cell)) : Prop :=
  ∀ r ∈ cells, r.length = w

/-- The grid part of the state invariant maintained by event processing
from a fresh terminal: positive dimensions, viewport height within the
scrollback cap, both viewport starts pinned at 0, at least a viewport of
rows in both buffers, and full-width rows. -/
structure GridInv (g : TerminalGrid) : Prop where
  wpos : 0 < g.width
  hpos : 0 < g.viewport_height
  hsb : g.viewport_height ≤ g.max_scrollback
  vps : g.viewport_start = 0
  avps : g.alternate_viewport_start = 0
  clen : g.viewport_height ≤ g.cells.length
  alen : g.viewport_height ≤ g.alternate_cells.length
  cw : RowsW g.width g.cells
  aw : RowsW g.width g.alternate_cells

/-- The full state invariant: grid invariant plus the cursor bounds
`col ≤ width` (equality is the pending-wrap state) and
`row < viewport_height`. -/
structure TermInv (t : Terminal) : Prop where
  ginv : GridInv t.grid
  ccol : t.cursor.col ≤ t.grid.width
  crow : t.cursor.row < t.grid.viewport_height

theorem rowsW_replicate (w n : Nat) : RowsW w (List.replicate n (blankRow w)) := by
  intro r hr
  rw [List.eq_of_mem_replicate hr]
  simp [blankRow]

theorem rowsW_append {w : Nat} {l₁ l₂ : List (List Cell)} (h₁ : RowsW w l₁)
    (h₂ : RowsW w l₂) : RowsW w (l₁ ++ l₂) := by
  intro r hr
  rcases List.mem_append.1 hr with h | h
  · exact h₁ r h
  · exact h₂ r h

theorem rowsW_sublist {w : Nat} {l l' : List (List Cell)}
    (hs : List.Sublist l' l) (h : RowsW w l) : RowsW w l' :=
  fun r hr => h r (hs.subset hr)

theorem rowsW_drop {w : Nat} {l : List (List Cell)} (h : RowsW w l) (n : Nat) :
    RowsW w (l.drop n) := rowsW_sublist (List.drop_sublist n l) h

theorem rowsW_take {w : Nat} {l : List (List Cell)} (h : RowsW w l) (n : Nat) :
    RowsW w (l.take n) := rowsW_sublist (List.take_sublist n l) h

theorem rowsW_eraseIdx {w : Nat} {l : List (List Cell)} (h : RowsW w l)
    (i : Nat) : RowsW w (l.eraseIdx i) :=
  rowsW_sublist (List.eraseIdx_sublist l i) h

theorem rowsW_set {w : Nat} {l : List (List Cell)} {r : List Cell}
    (h : RowsW w l) (hr : r.length = w) (i : Nat) : RowsW w (l.set i r) := by
  intro r' hr'
  rcases List.mem_or_eq_of_mem_set hr' with h' | rfl
  · exact h r' h'
  · exact hr

theorem rowsW_insertIdx {w : Nat} {l : List (List Cell)} {r : List Cell}
    (h : RowsW w l) (hr : r.length = w) (i : Nat) :
    RowsW w (l.insertIdx i r) := by
  rcases le_or_lt i l.length with hi | hi
  · intro r' hr'
    rcases (List.mem_insertIdx hi).1 hr' with rfl | h'
    · exact hr
    · exact h r' h'
  · rw [List.insertIdx_of_length_lt _ _ _ hi]
    exact h

theorem getD_mem {α : Type} {l : List α} {i : Nat} (hi : i < l.length) (d : α) :
    l.getD i d ∈ l := by
  rw [List.getD_eq_getElem?_getD, List.getElem?_eq_getElem hi]
  exact List.getElem_mem hi

theorem growRows_length (cells : List (List Cell)) (w row : Nat) :
    (growRows cells w row).length = cells.length + (row + 1 - cells.length) := by
  simp [growRows]

theorem growRows_rowsW {w : Nat} {cells : List (List Cell)} (h : RowsW w cells)
    (row : Nat) : RowsW w (growRows cells w row) :=
  rowsW_append h (rowsW_replicate w _)

/-- `put_cell` preserves the grid invariant. -/
theorem put_cell_grid_inv {g : TerminalGrid} (h : GridInv g) (cell : Cell)
    (row col : Nat) : GridInv (g.put_cell cell row col) := by
  have hrowlt : row < (growRows g.cells g.width row).length := by
    rw [growRows_length]; omega
  have hg1 : RowsW g.width (growRows g.cells g.width row) := growRows_rowsW h.cw row
  have hglen : g.viewport_height ≤ (growRows g.cells g.width row).length := by
    rw [growRows_length]; have := h.clen; omega
  have hrw : ((growRows g.cells g.width row).getD row []).length = g.width :=
    hg1 _ (getD_mem hrowlt [])
  have hset : RowsW g.width ((growRows g.cells g.width row).set row
      (((growRows g.cells g.width row).getD row []).set col cell)) :=
    rowsW_set hg1 (by rw [List.length_set]; exact hrw) row
  simp only [TerminalGrid.put_cell]
  split_ifs with hw htrim htrim
  · refine ⟨h.wpos, h.hpos, h.hsb, by simp [h.vps], h.avps, ?_, h.alen,
      rowsW_drop hset _, h.aw⟩
    simp only [List.length_set] at htrim
    simp only [List.length_drop, List.length_set]
    have := h.hsb
    omega
  · refine ⟨h.wpos, h.hpos, h.hsb, h.vps, h.avps, ?_, h.alen, hset, h.aw⟩
    rw [List.length_set]
    exact hglen
  · refine ⟨h.wpos, h.hpos, h.hsb, by simp [h.vps], h.avps, ?_, h.alen,
      rowsW_drop hg1 _, h.aw⟩
    simp only [List.length_drop]
    have := h.hsb
    omega
  · exact ⟨h.wpos, h.hpos, h.hsb, h.vps, h.avps, hglen, h.alen, hg1, h.aw⟩

theorem put_cell_width (g : TerminalGrid) (cell : Cell) (row col : Nat) :
    (g.put_cell cell row col).width = g.width := by
  simp only [TerminalGrid.put_cell]
  split_ifs <;> rfl

theorem put_cell_height (g : TerminalGrid) (cell : Cell) (row col : Nat) :
    (g.put_cell cell row col).viewport_height = g.viewport_height := by
  simp only [TerminalGrid.put_cell]
  split_ifs <;> rfl
theorem clearRow_length (r : List Cell) : (clearRow r).length = r.length := by
  simp [clearRow]

theorem rowsW_mapIdx {w : Nat} {l : List (List Cell)}
    {f : Nat → List Cell → List Cell} (hf : ∀ i r, (f i r).length = r.length)
    (h : RowsW w l) : RowsW w (l.mapIdx f) := by
  intro r hr
  obtain ⟨i, hi, rfl⟩ := List.mem_iff_getElem.1 hr
  rw [List.getElem_mapIdx, hf]
  exact h _ (List.getElem_mem _)

theorem clear_viewport_grid_inv {g : TerminalGrid} (h : GridInv g) :
    GridInv g.clear_viewport := by
  refine ⟨h.wpos, h.hpos, h.hsb, h.vps, h.avps, ?_, h.alen, ?_, h.aw⟩
  · simp only [TerminalGrid.clear_viewport, List.length_mapIdx]
    exact h.clen
  · exact rowsW_mapIdx (fun i r => by split <;> simp [clearRow]) h.cw

theorem clear_line_grid_inv {g : TerminalGrid} (h : GridInv g) (row : Nat) :
    GridInv (g.clear_line row) := by
  unfold TerminalGrid.clear_line
  split
  · next hlt =>
    refine ⟨h.wpos, h.hpos, h.hsb, h.vps, h.avps, ?_, h.alen, ?_, h.aw⟩
    · simpa using h.clen
    · exact rowsW_set h.cw
        (by rw [clearRow_length]; exact h.cw _ (getD_mem hlt [])) row
  · exact h

theorem clear_line_width (g : TerminalGrid) (row : Nat) :
    (g.clear_line row).width = g.width := by
  unfold TerminalGrid.clear_line
  split <;> rfl

theorem clear_line_height (g : TerminalGrid) (row : Nat) :
    (g.clear_line row).viewport_height = g.viewport_height := by
  unfold TerminalGrid.clear_line
  split <;> rfl

theorem to_alternate_grid_inv {g : TerminalGrid} (h : GridInv g) :
    GridInv g.to_alternate_screen := by
  unfold TerminalGrid.to_alternate_screen
  split
  · exact h
  · exact ⟨h.wpos, h.hpos, h.hsb, h.avps, h.vps, h.alen, h.clen, h.aw, h.cw⟩

theorem to_main_grid_inv {g : TerminalGrid} (h : GridInv g) :
    GridInv g.to_main_screen := by
  unfold TerminalGrid.to_main_screen
  split
  · exact ⟨h.wpos, h.hpos, h.hsb, h.avps, h.vps, h.alen, h.clen, h.aw, h.cw⟩
  · exact h

theorem to_alternate_width (g : TerminalGrid) :
    g.to_alternate_screen.width = g.width := by
  unfold TerminalGrid.to_alternate_screen
  split <;> rfl

theorem to_alternate_height (g : TerminalGrid) :
    g.to_alternate_screen.viewport_height = g.viewport_height := by
  unfold TerminalGrid.to_alternate_screen
  split <;> rfl

theorem to_main_width (g : TerminalGrid) :
    g.to_main_screen.width = g.width := by
  unfold TerminalGrid.to_main_screen
  split <;> rfl

theorem to_main_height (g : TerminalGrid) :
    g.to_main_screen.viewport_height = g.viewport_height := by
  unfold TerminalGrid.to_main_screen
  split <;> rfl

theorem set_scroll_region_grid_inv {g : TerminalGrid} (h : GridInv g)
    (top bottom : Nat) : GridInv (g.set_scroll_region top bottom) := by
  unfold TerminalGrid.set_scroll_region
  split
  · exact ⟨h.wpos, h.hpos, h.hsb, h.vps, h.avps, h.clen, h.alen, h.cw, h.aw⟩
  · exact h

theorem reset_scroll_region_grid_inv {g : TerminalGrid} (h : GridInv g) :
    GridInv g.reset_scroll_region :=
  ⟨h.wpos, h.hpos, h.hsb, h.vps, h.avps, h.clen, h.alen, h.cw, h.aw⟩

theorem set_scroll_region_vps (g : TerminalGrid) (top bottom : Nat) :
    (g.set_scroll_region top bottom).viewport_start = g.viewport_start := by
  unfold TerminalGrid.set_scroll_region
  split <;> rfl

theorem set_scroll_region_width (g : TerminalGrid) (top bottom : Nat) :
    (g.set_scroll_region top bottom).width = g.width := by
  unfold TerminalGrid.set_scroll_region
  split <;> rfl

theorem set_scroll_region_height (g : TerminalGrid) (top bottom : Nat) :
    (g.set_scroll_region top bottom).viewport_height = g.viewport_height := by
  unfold TerminalGrid.set_scroll_region
  split <;> rfl

/-- Folding `put_cell` over any list of columns preserves the grid
invariant and the grid dimensions. -/
theorem eraseCols_foldl_inv {g : TerminalGrid} (h : GridInv g) (row : Nat)
    (l : List Nat) :
    GridInv (List.foldl (eraseColsFold row) g l) ∧
      (List.foldl (eraseColsFold row) g l).width = g.width ∧
      (List.foldl (eraseColsFold row) g l).viewport_height =
        g.viewport_height := by
  induction l generalizing g with
  | nil => exact ⟨h, rfl, rfl⟩
  | cons c cs ih =>
    simp only [List.foldl_cons, eraseColsFold]
    obtain ⟨h1, h2, h3⟩ := ih (put_cell_grid_inv h Cell.default row c)
    exact ⟨h1, by rw [h2, put_cell_width], by rw [h3, put_cell_height]⟩

/-- Folding `clear_line` over any list of rows preserves the grid
invariant and the grid dimensions. -/
theorem clearLines_foldl_inv {g : TerminalGrid} (h : GridInv g)
    (l : List Nat) :
    GridInv (List.foldl (fun g r => g.clear_line r) g l) ∧
      (List.foldl (fun g r => g.clear_line r) g l).width = g.width ∧
      (List.foldl (fun g r => g.clear_line r) g l).viewport_height =
        g.viewport_height := by
  induction l generalizing g with
  | nil => exact ⟨h, rfl, rfl⟩
  | cons c cs ih =>
    simp only [List.foldl_cons]
    obtain ⟨h1, h2, h3⟩ := ih (clear_line_grid_inv h c)
    exact ⟨h1, by rw [h2, clear_line_width], by rw [h3, clear_line_height]⟩
theorem removeAtLoop_length_ge {α : Type} (idx n : Nat) (l : List α) :
    l.length - n ≤ (removeAtLoop idx n l).length := by
  induction n generalizing l with
  | zero => simp [removeAtLoop]
  | succ n ih =>
    unfold removeAtLoop
    split
    · next hlt =>
      have := ih (l.eraseIdx idx)
      rw [List.length_eraseIdx_of_lt hlt] at this
      omega
    · have := ih l
      omega

theorem removeAtLoop_length_ge_min {α : Type} (idx n : Nat) (l : List α) :
    min l.length idx ≤ (removeAtLoop idx n l).length := by
  induction n generalizing l with
  | zero => simp [removeAtLoop]
  | succ n ih =>
    unfold removeAtLoop
    split
    · next hlt =>
      have := ih (l.eraseIdx idx)
      rw [List.length_eraseIdx_of_lt hlt] at this
      omega
    · next hge =>
      have := ih l
      omega

theorem removeAtLoop_length_le {α : Type} (idx n : Nat) (l : List α) :
    (removeAtLoop idx n l).length ≤ l.length := by
  induction n generalizing l with
  | zero => simp [removeAtLoop]
  | succ n ih =>
    unfold removeAtLoop
    split
    · next hlt =>
      have := ih (l.eraseIdx idx)
      have h2 := List.length_eraseIdx_le l idx
      omega
    · exact ih l

theorem removeAtLoop_rowsW {w : Nat} {l : List (List Cell)} (h : RowsW w l)
    (idx n : Nat) : RowsW w (removeAtLoop idx n l) := by
  induction n generalizing l with
  | zero => simpa [removeAtLoop] using h
  | succ n ih =>
    unfold removeAtLoop
    split
    · exact ih (rowsW_eraseIdx h idx)
    · exact ih h

theorem insertAtLoop_some {w : Nat} {l : List (List Cell)} {a : List Cell}
    {i : Nat} (hi : i ≤ l.length) (ha : a.length = w) (h : RowsW w l)
    (n : Nat) :
    ∃ l', insertAtLoop i a n l = some l' ∧ l'.length = l.length + n ∧
      RowsW w l' := by
  induction n generalizing l with
  | zero => exact ⟨l, rfl, by simp [insertAtLoop], h⟩
  | succ n ih =>
    have hlen : (l.insertIdx i a).length = l.length + 1 :=
      List.length_insertIdx i l hi
    obtain ⟨l', h1, h2, h3⟩ := ih (l := l.insertIdx i a)
      (by omega) (rowsW_insertIdx h ha i)
    refine ⟨l', ?_, by omega, h3⟩
    unfold insertAtLoop
    rw [if_pos hi]
    exact h1

theorem dlRemoveLoop_length_ge (a b n : Nat) (l : List (List Cell)) :
    l.length - n ≤ (dlRemoveLoop a b n l).length := by
  induction n generalizing l with
  | zero => simp [dlRemoveLoop]
  | succ n ih =>
    unfold dlRemoveLoop
    split
    · next hlt =>
      have := ih (l.eraseIdx a)
      rw [List.length_eraseIdx_of_lt hlt.1] at this
      omega
    · have := ih l
      omega

theorem dlRemoveLoop_length_ge_min (a b n : Nat) (l : List (List Cell)) :
    min l.length b ≤ (dlRemoveLoop a b n l).length := by
  induction n generalizing l with
  | zero => simp [dlRemoveLoop]
  | succ n ih =>
    unfold dlRemoveLoop
    split
    · next hlt =>
      have := ih (l.eraseIdx a)
      rw [List.length_eraseIdx_of_lt hlt.1] at this
      omega
    · have := ih l
      omega

theorem dlRemoveLoop_of_le (a b n : Nat) (l : List (List Cell))
    (hb : l.length ≤ b) : dlRemoveLoop a b n l = l := by
  induction n with
  | zero => rfl
  | succ n ih =>
    unfold dlRemoveLoop
    rw [if_neg (by omega)]
    exact ih

theorem dlRemoveLoop_rowsW {w : Nat} {l : List (List Cell)} (h : RowsW w l)
    (a b n : Nat) : RowsW w (dlRemoveLoop a b n l) := by
  induction n generalizing l with
  | zero => simpa [dlRemoveLoop] using h
  | succ n ih =>
    unfold dlRemoveLoop
    split
    · exact ih (rowsW_eraseIdx h a)
    · exact ih h

theorem guardedInsertLoop_length_ge {p : Nat} {a : List Cell} (n : Nat)
    (l : List (List Cell)) :
    l.length ≤ (guardedInsertLoop p a n l).length := by
  induction n generalizing l with
  | zero => simp [guardedInsertLoop]
  | succ n ih =>
    unfold guardedInsertLoop
    split
    · next hle =>
      have h2 : (l.insertIdx p a).length = l.length + 1 :=
        List.length_insertIdx p l hle
      have := ih (l.insertIdx p a)
      omega
    · exact ih l

theorem guardedInsertLoop_length_of_le {p : Nat} {a : List Cell} (n : Nat)
    (l : List (List Cell)) (hp : p ≤ l.length) :
    (guardedInsertLoop p a n l).length = l.length + n := by
  induction n generalizing l with
  | zero => simp [guardedInsertLoop]
  | succ n ih =>
    unfold guardedInsertLoop
    rw [if_pos hp]
    have h2 : (l.insertIdx p a).length = l.length + 1 :=
      List.length_insertIdx p l hp
    rw [ih (l.insertIdx p a) (by omega), h2]
    omega

theorem guardedInsertLoop_rowsW {w : Nat} {l : List (List Cell)}
    {a : List Cell} (h : RowsW w l) (ha : a.length = w) (p n : Nat) :
    RowsW w (guardedInsertLoop p a n l) := by
  induction n generalizing l with
  | zero => simpa [guardedInsertLoop] using h
  | succ n ih =>
    unfold guardedInsertLoop
    split
    · exact ih (rowsW_insertIdx h ha p)
    · exact ih h

theorem scrollUpInsertLoop_length {pos : Nat} {a : List Cell} (n : Nat)
    (l : List (List Cell)) :
    (scrollUpInsertLoop pos a n l).length = l.length + n := by
  induction n generalizing l with
  | zero => simp [scrollUpInsertLoop]
  | succ n ih =>
    unfold scrollUpInsertLoop
    have h2 : (l.insertIdx (min pos l.length) a).length = l.length + 1 :=
      List.length_insertIdx _ l (by omega)
    rw [ih, h2]
    omega

theorem scrollUpInsertLoop_rowsW {w : Nat} {l : List (List Cell)}
    {a : List Cell} (h : RowsW w l) (ha : a.length = w) (pos n : Nat) :
    RowsW w (scrollUpInsertLoop pos a n l) := by
  induction n generalizing l with
  | zero => simpa [scrollUpInsertLoop] using h
  | succ n ih =>
    unfold scrollUpInsertLoop
    exact ih (rowsW_insertIdx h ha _)
theorem blankRow_length (w : Nat) : (blankRow w).length = w := by
  simp [blankRow]

/-- Under the grid invariant (with the cursor row inside the viewport),
`insert_lines` succeeds — the insertion index never exceeds the row count —
and preserves the invariant. -/
theorem insert_lines_inv {g : TerminalGrid} (h : GridInv g) {row : Nat}
    (hrow : row < g.viewport_height) (count : Nat) :
    ∃ g', g.insert_lines row count = some g' ∧ GridInv g' ∧
      g'.width = g.width ∧ g'.viewport_height = g.viewport_height := by
  unfold TerminalGrid.insert_lines
  split
  · exact ⟨g, rfl, h, rfl, rfl⟩
  · next hguard =>
    push_neg at hguard
    rw [h.vps]
    simp only [Nat.zero_add, Nat.add_sub_cancel_left]
    have hL1 := removeAtLoop_length_ge g.scroll_bottom
      (min count (g.scroll_bottom - row + 1)) g.cells
    have hL2 := removeAtLoop_length_ge_min g.scroll_bottom
      (min count (g.scroll_bottom - row + 1)) g.cells
    have hc := h.clen
    have hrowle : row ≤ (removeAtLoop g.scroll_bottom
        (min count (g.scroll_bottom - row + 1)) g.cells).length := by
      have hsb2 := hguard.2
      omega
    obtain ⟨l', hsome, hlen, hrw⟩ := insertAtLoop_some hrowle
      (blankRow_length g.width) (removeAtLoop_rowsW h.cw _ _)
      (min count (g.scroll_bottom - row + 1))
    rw [hsome]
    have hclen : g.viewport_height ≤ l'.length := by omega
    exact ⟨_, rfl, ⟨h.wpos, h.hpos, h.hsb, rfl, h.avps, hclen, h.alen, hrw,
      h.aw⟩, rfl, rfl⟩

/-- `delete_lines` preserves the grid invariant: it never removes more rows
than it inserts back. -/
theorem delete_lines_inv {g : TerminalGrid} (h : GridInv g) (row count : Nat) :
    GridInv (g.delete_lines row count) ∧
      (g.delete_lines row count).width = g.width ∧
      (g.delete_lines row count).viewport_height = g.viewport_height := by
  unfold TerminalGrid.delete_lines
  split
  · exact ⟨h, rfl, rfl⟩
  · next hguard =>
    push_neg at hguard
    rw [h.vps]
    simp only [Nat.zero_add, Nat.add_sub_cancel_left]
    have hc := h.clen
    have hclen : g.viewport_height ≤ (guardedInsertLoop g.scroll_bottom
        (blankRow g.width) (min count (g.scroll_bottom - row + 1))
        (dlRemoveLoop row g.scroll_bottom
          (min count (g.scroll_bottom - row + 1)) g.cells)).length := by
      rcases le_or_lt g.cells.length g.scroll_bottom with hsb' | hsb'
      · rw [dlRemoveLoop_of_le _ _ _ _ hsb']
        have := guardedInsertLoop_length_ge (p := g.scroll_bottom)
          (a := blankRow g.width) (min count (g.scroll_bottom - row + 1))
          g.cells
        omega
      · have h1 := dlRemoveLoop_length_ge row g.scroll_bottom
          (min count (g.scroll_bottom - row + 1)) g.cells
        have h2 := dlRemoveLoop_length_ge_min row g.scroll_bottom
          (min count (g.scroll_bottom - row + 1)) g.cells
        have hple : g.scroll_bottom ≤ (dlRemoveLoop row g.scroll_bottom
            (min count (g.scroll_bottom - row + 1)) g.cells).length := by
          omega
        rw [guardedInsertLoop_length_of_le _ _ hple]
        omega
    exact ⟨⟨h.wpos, h.hpos, h.hsb, rfl, h.avps, hclen, h.alen,
      guardedInsertLoop_rowsW (dlRemoveLoop_rowsW h.cw _ _ _)
        (blankRow_length g.width) _ _, h.aw⟩, trivial, trivial⟩
theorem checkedSub_pred {a : Nat} (h : 0 < a) :
    checkedSub a 1 = some (a - 1) := by
  unfold checkedSub
  rw [if_pos (by omega)]

theorem checkedSub_zero (a : Nat) : checkedSub a 0 = some a := by
  unfold checkedSub
  rw [if_pos (by omega)]
  simp

theorem handle_sgr_inv {t : Terminal} (h : TermInv t) (p : List (List Nat)) :
    TermInv (t.handle_sgr p) := by
  unfold Terminal.handle_sgr
  split <;> exact ⟨h.ginv, h.ccol, h.crow⟩

theorem handle_dec_mode_set_inv {t : Terminal} (h : TermInv t)
    (p : List (List Nat)) : TermInv (t.handle_dec_mode_set p) := by
  unfold Terminal.handle_dec_mode_set
  cases hD : DecPrivateMode.from_mode (Terminal.param_or p 0 0) <;>
    first
      | exact ⟨h.ginv, h.ccol, h.crow⟩
      | exact ⟨clear_viewport_grid_inv (to_alternate_grid_inv h.ginv),
          Nat.zero_le _,
          by
            show 0 < t.grid.to_alternate_screen.clear_viewport.viewport_height
            have := to_alternate_height t.grid
            have := h.ginv.hpos
            simp only [TerminalGrid.clear_viewport]
            omega⟩

theorem handle_dec_mode_reset_inv {t : Terminal} (h : TermInv t)
    (p : List (List Nat)) : TermInv (t.handle_dec_mode_reset p) := by
  unfold Terminal.handle_dec_mode_reset
  cases hD : DecPrivateMode.from_mode (Terminal.param_or p 0 0) <;>
    first
      | exact ⟨h.ginv, h.ccol, h.crow⟩
      | exact ⟨to_main_grid_inv h.ginv,
          by
            show t.cursor.col ≤ t.grid.to_main_screen.width
            rw [to_main_width]
            exact h.ccol,
          by
            show t.cursor.row < t.grid.to_main_screen.viewport_height
            rw [to_main_height]
            exact h.crow⟩

theorem put_pos_inv {t : Terminal} (h : TermInv t) (cell : Cell) {r cl : Nat}
    (hr : r < t.grid.viewport_height) (hcl : cl < t.grid.width) :
    TermInv { t with
      grid := t.grid.put_cell cell r cl
      cursor := { t.cursor with row := r, col := cl + 1 } } := by
  refine ⟨put_cell_grid_inv h.ginv _ _ _, ?_, ?_⟩
  · show cl + 1 ≤ (t.grid.put_cell cell r cl).width
    rw [put_cell_width]
    omega
  · show r < (t.grid.put_cell cell r cl).viewport_height
    rw [put_cell_height]
    exact hr

theorem printChar_inv {t : Terminal} (h : TermInv t) (c : Char) :
    ∃ t', t.printChar c = some t' ∧ TermInv t' := by
  have hw := h.ginv.wpos
  have hh := h.ginv.hpos
  unfold Terminal.printChar
  split_ifs <;>
    first
      | (rw [checkedSub_pred hh]
         exact ⟨_, rfl, put_pos_inv h _
           (by show t.grid.viewport_height - 1 < t.grid.viewport_height
               omega) hw⟩)
      | (rw [checkedSub_pred hw]
         exact ⟨_, rfl, put_pos_inv h _ h.crow
           (by show t.grid.width - 1 < t.grid.width
               omega)⟩)
      | exact ⟨_, rfl, put_pos_inv h _
          (by show t.cursor.row + 1 < t.grid.viewport_height
              omega) hw⟩
      | exact ⟨_, rfl, put_pos_inv h _ h.crow
          (by show t.cursor.col < t.grid.width
              omega)⟩

theorem executeCtl_inv {t : Terminal} (h : TermInv t) (b : Nat) :
    ∃ t', t.executeCtl b = some t' ∧ TermInv t' := by
  have hw := h.ginv.wpos
  have hh := h.ginv.hpos
  have hcol := h.ccol
  have hrow := h.crow
  unfold Terminal.executeCtl
  split_ifs with h1 h2 h3 h4 h5
  · rw [checkedSub_pred hh]
    exact ⟨_, rfl, ⟨h.ginv, hcol,
      by show t.grid.viewport_height - 1 < t.grid.viewport_height; omega⟩⟩
  · exact ⟨_, rfl, ⟨h.ginv, hcol,
      by show t.cursor.row + 1 < t.grid.viewport_height; omega⟩⟩
  · exact ⟨_, rfl, ⟨h.ginv, by show (0 : Nat) ≤ t.grid.width; omega, hrow⟩⟩
  · exact ⟨_, rfl, ⟨h.ginv,
      by show t.cursor.col - 1 ≤ t.grid.width; omega, hrow⟩⟩
  · exact ⟨t, rfl, h⟩
  · rw [checkedSub_pred hw]
    exact ⟨_, rfl, ⟨h.ginv,
      by show min ((t.cursor.col / 8 + 1) * 8) (t.grid.width - 1) ≤ t.grid.width
         omega, hrow⟩⟩
  · exact ⟨t, rfl, h⟩
/-- Replacing the grid by one with the same dimensions that satisfies the
grid invariant preserves the full invariant when the cursor is unchanged. -/
theorem grid_step_inv {t : Terminal} (h : TermInv t) {g' : TerminalGrid}
    (hg : GridInv g') (hwidth : g'.width = t.grid.width)
    (hheight : g'.viewport_height = t.grid.viewport_height) :
    TermInv { t with grid := g' } :=
  ⟨hg, by show t.cursor.col ≤ g'.width; rw [hwidth]; exact h.ccol,
    by show t.cursor.row < g'.viewport_height; rw [hheight]; exact h.crow⟩

/-- Every parsed CSI command executes without panicking and preserves the
invariant. -/
theorem execCommand_inv {t : Terminal} (h : TermInv t) (cmd : CsiCommand) :
    ∃ t', t.execCommand cmd = some t' ∧ TermInv t' := by
  have hw := h.ginv.wpos
  have hh := h.ginv.hpos
  have hcol := h.ccol
  have hrow := h.crow
  cases cmd with
  | CursorPosition row col =>
    unfold Terminal.execCommand
    dsimp only
    rw [checkedSub_pred hh, checkedSub_pred hw]
    exact ⟨_, rfl, ⟨h.ginv,
      by show min (col - 1) (t.grid.width - 1) ≤ t.grid.width; omega,
      by show min (row - 1) (t.grid.viewport_height - 1) <
          t.grid.viewport_height
         omega⟩⟩
  | CursorUp n =>
    exact ⟨_, rfl, ⟨h.ginv, hcol,
      by show t.cursor.row - n < t.grid.viewport_height; omega⟩⟩
  | CursorDown n =>
    unfold Terminal.execCommand
    dsimp only
    rw [checkedSub_pred hh]
    exact ⟨_, rfl, ⟨h.ginv, hcol,
      by show min (t.cursor.row + n) (t.grid.viewport_height - 1) <
          t.grid.viewport_height
         omega⟩⟩
  | CursorForward n =>
    unfold Terminal.execCommand
    dsimp only
    rw [checkedSub_pred hw]
    exact ⟨_, rfl, ⟨h.ginv,
      by show min (t.cursor.col + n) (t.grid.width - 1) ≤ t.grid.width
         omega, hrow⟩⟩
  | CursorBack n =>
    exact ⟨_, rfl, ⟨h.ginv,
      by show t.cursor.col - n ≤ t.grid.width; omega, hrow⟩⟩
  | CursorHorizontalAbsolute col =>
    unfold Terminal.execCommand
    dsimp only
    rw [checkedSub_pred hw]
    exact ⟨_, rfl, ⟨h.ginv,
      by show min (col - 1) (t.grid.width - 1) ≤ t.grid.width; omega, hrow⟩⟩
  | VerticalPositionAbsolute row =>
    unfold Terminal.execCommand
    dsimp only
    rw [checkedSub_pred hh]
    exact ⟨_, rfl, ⟨h.ginv, hcol,
      by show min (row - 1) (t.grid.viewport_height - 1) <
          t.grid.viewport_height
         omega⟩⟩
  | EraseInDisplay mode =>
    cases mode with
    | ToEnd =>
      obtain ⟨hg1, hw1, hh1⟩ := eraseCols_foldl_inv h.ginv t.cursor.row
        (List.range' t.cursor.col (t.grid.width - t.cursor.col))
      obtain ⟨hg2, hw2, hh2⟩ := clearLines_foldl_inv hg1
        (List.range' (t.cursor.row + 1)
          ((List.foldl (eraseColsFold t.cursor.row) t.grid
              (List.range' t.cursor.col
                (t.grid.width - t.cursor.col))).viewport_start +
            (List.foldl (eraseColsFold t.cursor.row) t.grid
              (List.range' t.cursor.col
                (t.grid.width - t.cursor.col))).viewport_height -
            (t.cursor.row + 1)))
      exact ⟨_, rfl, grid_step_inv h hg2 (by rw [hw2, hw1]) (by rw [hh2, hh1])⟩
    | All =>
      exact ⟨_, rfl, ⟨clear_viewport_grid_inv h.ginv, Nat.zero_le _, hh⟩⟩
    | ToBeginning =>
      obtain ⟨hg1, hw1, hh1⟩ := clearLines_foldl_inv h.ginv
        (List.range' 0 t.cursor.row)
      obtain ⟨hg2, hw2, hh2⟩ := eraseCols_foldl_inv hg1 t.cursor.row
        (List.range' 0 (t.cursor.col + 1))
      exact ⟨_, rfl, grid_step_inv h hg2 (by rw [hw2, hw1]) (by rw [hh2, hh1])⟩
    | AllWithScrollback =>
      exact ⟨_, rfl, grid_step_inv h (clear_viewport_grid_inv h.ginv) rfl rfl⟩
  | EraseInLine mode =>
    cases mode with
    | ToEnd =>
      obtain ⟨hg1, hw1, hh1⟩ := eraseCols_foldl_inv h.ginv t.cursor.row
        (List.range' t.cursor.col (t.grid.width - t.cursor.col))
      exact ⟨_, rfl, grid_step_inv h hg1 hw1 hh1⟩
    | All =>
      exact ⟨_, rfl, grid_step_inv h (clear_line_grid_inv h.ginv t.cursor.row)
        (clear_line_width t.grid t.cursor.row)
        (clear_line_height t.grid t.cursor.row)⟩
    | ToBeginning =>
      obtain ⟨hg1, hw1, hh1⟩ := eraseCols_foldl_inv h.ginv t.cursor.row
        (List.range' 0 (t.cursor.col + 1))
      exact ⟨_, rfl, grid_step_inv h hg1 hw1 hh1⟩
    | AllWithScrollback => exact ⟨t, rfl, h⟩
  | SetScrollingRegion top bottom =>
    unfold Terminal.execCommand
    dsimp only
    by_cases hA : top = 0 ∧ bottom = 0
    · rw [if_pos hA]
      refine ⟨_, rfl, ⟨reset_scroll_region_grid_inv h.ginv, Nat.zero_le _, ?_⟩⟩
      show t.grid.viewport_start < t.grid.viewport_height
      rw [h.ginv.vps]
      exact hh
    · rw [if_neg hA]
      by_cases hB : 0 < top ∧ 0 < bottom
      · rw [if_pos hB]
        refine ⟨_, rfl, ⟨set_scroll_region_grid_inv h.ginv _ _, Nat.zero_le _,
          ?_⟩⟩
        show (t.grid.set_scroll_region (top - 1) (bottom - 1)).viewport_start <
          (t.grid.set_scroll_region (top - 1) (bottom - 1)).viewport_height
        rw [set_scroll_region_vps, set_scroll_region_height, h.ginv.vps]
        exact hh
      · rw [if_neg hB]
        refine ⟨_, rfl, ⟨h.ginv, Nat.zero_le _, ?_⟩⟩
        show t.grid.viewport_start < t.grid.viewport_height
        rw [h.ginv.vps]
        exact hh
  | InsertLines n =>
    unfold Terminal.execCommand
    dsimp only
    rw [h.ginv.vps, checkedSub_zero]
    simp only [Option.bind_eq_bind, Option.some_bind]
    obtain ⟨g', hsome, hginv, hw', hh'⟩ := insert_lines_inv h.ginv h.crow
      (max n 1)
    rw [hsome]
    exact ⟨_, rfl, grid_step_inv h hginv hw' hh'⟩
  | DeleteLines n =>
    unfold Terminal.execCommand
    dsimp only
    rw [h.ginv.vps, checkedSub_zero]
    simp only [Option.bind_eq_bind, Option.some_bind]
    obtain ⟨hginv, hw', hh'⟩ := delete_lines_inv h.ginv t.cursor.row (max n 1)
    exact ⟨_, rfl, grid_step_inv h hginv hw' hh'⟩
  | SelectGraphicRendition => exact ⟨t, rfl, h⟩
  | DeviceStatusReport n =>
    unfold Terminal.execCommand
    dsimp only
    split_ifs <;> exact ⟨_, rfl, ⟨h.ginv, hcol, hrow⟩⟩
  | DeviceAttributes n =>
    unfold Terminal.execCommand
    dsimp only
    split_ifs <;> exact ⟨_, rfl, ⟨h.ginv, hcol, hrow⟩⟩
  | WindowManipulation n => exact ⟨t, rfl, h⟩
  | SetCursorStyle style =>
    unfold Terminal.execCommand
    dsimp only
    split_ifs <;> exact ⟨_, rfl, ⟨h.ginv, hcol, hrow⟩⟩
  | EraseCharacter n =>
    obtain ⟨hg1, hw1, hh1⟩ := eraseCols_foldl_inv h.ginv t.cursor.row
      (List.range' t.cursor.col
        (min (t.cursor.col + n) t.grid.width - t.cursor.col))
    exact ⟨_, rfl, grid_step_inv h hg1 hw1 hh1⟩
  | ScrollDown n =>
    unfold Terminal.execCommand
    dsimp only
    rw [h.ginv.vps]
    obtain ⟨l', hsome, hlen, hrw⟩ := insertAtLoop_some (i := 0)
      (Nat.zero_le _) (blankRow_length t.grid.width) h.ginv.cw n
    rw [hsome]
    simp only [Option.bind_eq_bind, Option.some_bind]
    split_ifs with htrim
    · have htrim' : t.grid.max_scrollback < l'.length := htrim
      have hc := h.ginv.clen
      have hsb := h.ginv.hsb
      refine ⟨_, rfl, grid_step_inv h ⟨h.ginv.wpos, h.ginv.hpos, h.ginv.hsb,
        by simp, h.ginv.avps, ?_, h.ginv.alen, rowsW_drop hrw _,
        h.ginv.aw⟩ rfl rfl⟩
      show t.grid.viewport_height ≤
        (l'.drop (l'.length - t.grid.max_scrollback)).length
      rw [List.length_drop]
      omega
    · have hc := h.ginv.clen
      refine ⟨_, rfl, grid_step_inv h ⟨h.ginv.wpos, h.ginv.hpos, h.ginv.hsb,
        by simp [h.ginv.vps], h.ginv.avps, ?_, h.ginv.alen, hrw,
        h.ginv.aw⟩ rfl rfl⟩
      show t.grid.viewport_height ≤ l'.length
      omega
  | ScrollUp n =>
    unfold Terminal.execCommand
    dsimp only
    rw [h.ginv.vps]
    split_ifs with hguard
    · have hg : min n t.grid.viewport_height ≤ t.grid.cells.length := by omega
      have hc := h.ginv.clen
      refine ⟨_, rfl, grid_step_inv h ⟨h.ginv.wpos, h.ginv.hpos, h.ginv.hsb,
        rfl, h.ginv.avps, ?_, h.ginv.alen,
        scrollUpInsertLoop_rowsW
          (rowsW_append (rowsW_take h.ginv.cw _) (rowsW_drop h.ginv.cw _))
          (blankRow_length t.grid.width) _ _,
        h.ginv.aw⟩ rfl rfl⟩
      show t.grid.viewport_height ≤ (scrollUpInsertLoop
        (0 + t.grid.viewport_height - min n t.grid.viewport_height)
        (blankRow t.grid.width) (min n t.grid.viewport_height)
        (t.grid.cells.take 0 ++
          t.grid.cells.drop (0 + min n t.grid.viewport_height))).length
      rw [scrollUpInsertLoop_length, List.length_append, List.length_take,
        List.length_drop]
      omega
    · exact ⟨t, rfl, h⟩
  | DeleteCharacter n =>
    unfold Terminal.execCommand
    dsimp only
    split_ifs with hcol2
    · simp only [h.ginv.vps, Nat.zero_add]
      have hc := h.ginv.clen
      have hgrow : t.cursor.row < (growRows t.grid.cells t.grid.width
          t.cursor.row).length := by
        rw [growRows_length]
        omega
      have h1 : ((growRows t.grid.cells t.grid.width t.cursor.row).getD
          t.cursor.row []).length = t.grid.width :=
        growRows_rowsW h.ginv.cw t.cursor.row _ (getD_mem hgrow [])
      have h2 := removeAtLoop_length_le t.cursor.col
        (min n (t.grid.width - t.cursor.col))
        ((growRows t.grid.cells t.grid.width t.cursor.row).getD t.cursor.row [])
      refine ⟨_, rfl, grid_step_inv h ⟨h.ginv.wpos, h.ginv.hpos, h.ginv.hsb,
        rfl, h.ginv.avps, ?_, h.ginv.alen,
        rowsW_set (growRows_rowsW h.ginv.cw t.cursor.row) ?_ t.cursor.row,
        h.ginv.aw⟩ rfl rfl⟩
      · show t.grid.viewport_height ≤ ((growRows t.grid.cells t.grid.width
          t.cursor.row).set t.cursor.row _).length
        rw [List.length_set, growRows_length]
        omega
      · rw [List.length_append, List.length_replicate]
        omega
    · exact ⟨t, rfl, h⟩
  | ResetMode m => exact ⟨t, rfl, h⟩
  | Unknown c => exact ⟨t, rfl, h⟩

/-- Every CSI dispatch from an invariant state succeeds and preserves the
invariant. -/
theorem csi_dispatch_inv {t : Terminal} (h : TermInv t)
    (params : List (List Nat)) (intermediates : List Nat) (action : Char) :
    ∃ t', t.csi_dispatch params intermediates action = some t' ∧ TermInv t' := by
  unfold Terminal.csi_dispatch
  dsimp only
  split_ifs with h1 h2 h3 h4
  · exact ⟨_, rfl, ⟨h.ginv, h.ccol, h.crow⟩⟩
  · exact ⟨_, rfl, handle_dec_mode_set_inv h params⟩
  · exact ⟨_, rfl, handle_dec_mode_reset_inv h params⟩
  · exact ⟨_, rfl, ⟨h.ginv, h.ccol, h.crow⟩⟩
  · exact ⟨t, rfl, h⟩
  · cases hp : CsiCommand.parse action params false with
    | error e => exact ⟨t, rfl, h⟩
    | ok cmd =>
      cases cmd <;>
        first
          | exact ⟨_, rfl, handle_sgr_inv h params⟩
          | exact execCommand_inv h _

/-- A single parser event from an invariant state succeeds and preserves
the invariant. -/
theorem applyEvent_inv {t : Terminal} (h : TermInv t) (e : Event) :
    ∃ t', applyEvent e t = some t' ∧ TermInv t' := by
  cases e with
  | print c => exact printChar_inv h c
  | execute b => exact executeCtl_inv h b
  | csi params intermediates action =>
    exact csi_dispatch_inv h params intermediates action

/-- Any event stream from an invariant state succeeds and preserves the
invariant. -/
theorem processEvents_inv {t : Terminal} (h : TermInv t) (es : List Event) :
    ∃ t', processEvents es t = some t' ∧ TermInv t' := by
  induction es generalizing t with
  | nil => exact ⟨t, rfl, h⟩
  | cons e rest ih =>
    obtain ⟨t', he, h'⟩ := applyEvent_inv h e
    simp only [processEvents]
    rw [he]
    exact ih h'

/-- A fresh terminal with positive dimensions and at most `max_scrollback`
rows satisfies the invariant. -/
theorem new_inv {cols rows : Nat} (hc : 0 < cols) (hr : 0 < rows)
    (hsb : rows ≤ 10000) : TermInv (Terminal.new cols rows) := by
  refine ⟨⟨hc, hr, hsb, rfl, rfl, ?_, ?_, rowsW_replicate _ _,
    rowsW_replicate _ _⟩, Nat.zero_le _, hr⟩
  · show rows ≤ (List.replicate rows (blankRow cols)).length
    simp
  · show rows ≤ (List.replicate rows (blankRow cols)).length
    simp

/-- C2 (amended): for every sequence of parser events fed to a freshly
created terminal with positive dimensions and at most
`max_scrollback = 10000` rows, no operation panics: processing always
returns a state.  Both restrictions are necessary.  The original claim,
quantified over *any reachable state*, fails because `Terminal::resize`
can leave `viewport_start > cursor.row`, after which the CSI L handler's
`cursor.row - viewport_start` underflows
(`c2_counterexample_insert_lines_underflow`); and on a fresh terminal
with more rows than `max_scrollback` (e.g. `Terminal::new(1, 11000)`),
printing trims the cell buffer to 10000 rows while the viewport stays
taller, after which `ESC[10500d` then `ESC[L` drives the `Vec::insert`
of `insert_lines` past the end of the buffer — a panic on bytes alone,
so the row cap cannot be dropped from the hypothesis. -/
theorem c2_amended_no_panic (cols rows : Nat) (es : List Event)
    (hc : 0 < cols) (hr : 0 < rows) (hsb : rows ≤ 10000) :
    (processEvents es (Terminal.new cols rows)).isSome := by
  obtain ⟨t', ht, _⟩ := processEvents_inv (new_inv hc hr hsb) es
  rw [ht]
  rfl

theorem c2_amended_no_panic_witness :
    0 < 2 ∧ 0 < 2 ∧ 2 ≤ 10000 ∧
    (processEvents [Event.print 'A', Event.execute 10, Event.csi [[0]] [] 'T',
      Event.csi [[0]] [] 'L', Event.csi [[0]] [] 'M'] (Terminal.new 2 2)).isSome :=
  ⟨by decide, by decide, by decide,
   c2_amended_no_panic 2 2 _ (by decide) (by decide) (by decide)⟩

/-- C3 (amended): after any sequence of parser events from a freshly
created terminal with positive dimensions and at most
`max_scrollback = 10000` rows, processing returns a state whose cursor
satisfies `cursor.col ≤ width` — equality is reachable: printing in the
last column leaves the pending-wrap state `col = width`
(`c3_counterexample_col_eq_width`), so the claimed strict bound
`cursor.col < width` is off by one — and
`cursor.row ∈ [viewport_start, viewport_start + viewport_height)`.
The row cap is needed for the conclusion's totality: with more rows than
`max_scrollback` a byte sequence can panic (see C2), leaving no final
state at all. -/
theorem c3_amended_cursor_bounds (cols rows : Nat) (es : List Event)
    (hc : 0 < cols) (hr : 0 < rows) (hsb : rows ≤ 10000) :
    ∃ t', processEvents es (Terminal.new cols rows) = some t' ∧
      t'.cursor.col ≤ t'.grid.width ∧
      t'.grid.viewport_start ≤ t'.cursor.row ∧
      t'.cursor.row < t'.grid.viewport_start + t'.grid.viewport_height := by
  obtain ⟨t', ht, h⟩ := processEvents_inv (new_inv hc hr hsb) es
  refine ⟨t', ht, h.ccol, ?_, ?_⟩
  · rw [h.ginv.vps]
    exact Nat.zero_le _
  · have h1 := h.ginv.vps
    have h2 := h.crow
    omega

theorem c3_amended_cursor_bounds_witness :
    0 < 3 ∧ 0 < 2 ∧ 2 ≤ 10000 ∧
    ∃ t', processEvents [Event.print 'H', Event.print 'e', Event.print 'y']
      (Terminal.new 3 2) = some t' ∧
      t'.cursor.col ≤ t'.grid.width ∧
      t'.grid.viewport_start ≤ t'.cursor.row ∧
      t'.cursor.row < t'.grid.viewport_start + t'.grid.viewport_height :=
  ⟨by decide, by decide, by decide,
   c3_amended_cursor_bounds 3 2 _ (by decide) (by decide) (by decide)⟩
